import Mathlib

/-!
Verification of the C.A.R.L. intent-resolution pipeline.

This file gives a shallow embedding, in Lean, of the decision core of the
repository: the escalation state machine (`src/guardrails/hal.ts`), the
regex safety gate (`src/guardrails/patterns.ts`), the temporal extractor
(`src/intent/dates.ts`), the deterministic intent classifier
(`src/intent/intent.ts`), the NLU resolver (`src/llm/intent.ts`) and the
orchestrator `handleChat` (`src/web/server.ts`), together with theorems
checking the specified properties.

Modelling conventions:
* Text is `List Char` (`Str`). JavaScript `toLowerCase` is modelled on the
  ASCII range, which covers every pattern and keyword in the source.
* Instants are integer milliseconds. JavaScript `Date` civil-field getters
  (`getFullYear`, `getMonth`, `getDate`, `getDay`) of the current instant are
  carried alongside the raw timestamp in `NowT`; the composite source
  operations `setDate(getDate() + k)` and `setHours(...)` act directly on the
  timestamp (local time modelled as a fixed offset, no DST jumps).
  `Int` `/` and `%` coincide with floor division/modulus for the positive
  literal divisors used here, matching `Math.floor` arithmetic in the source.
* JavaScript `Date` time values are clipped to ±8.64e15 ms; beyond this a
  `Date` is invalid and holds NaN. The clip is modelled where an unbounded
  user-supplied count can reach it — the end instant of the "next N days"
  branch — while endpoints that are bounded calendar shifts of the (valid)
  current instant are taken as valid.
* `Math.random()`-based pool selection is modelled by an arbitrary `Nat`
  reduced modulo the pool size.
* External collaborators (the Ollama chat endpoint and the Canvas fetchers)
  are oracles in an `Env` record: each call either yields a value or fails,
  mirroring a resolved or rejected promise.
-/

/-- Text is modelled as a list of characters. -/
abbrev Str := List Char

/-- ASCII lowercasing, the fragment of `String.prototype.toLowerCase` exercised
by the source patterns. -/
def toLowerL (s : Str) : Str := s.map Char.toLower

/-- Does `p` occur at the head of `s`? -/
def startsWithL : Str → Str → Bool
  | [], _ => true
  | _ :: _, [] => false
  | a :: as, b :: bs => a == b && startsWithL as bs

/-- JavaScript `String.prototype.includes`: substring containment. -/
def hasSub (needle : Str) : Str → Bool
  | [] => startsWithL needle []
  | c :: t => startsWithL needle (c :: t) || hasSub needle t

/-- Strip a literal from the head of the input, returning the remainder. -/
def stripLit : Str → Str → Option Str
  | [], s => some s
  | _ :: _, [] => none
  | a :: as, b :: bs => if a == b then stripLit as bs else none

/-- Decimal rendering of a natural number (JavaScript template interpolation). -/
def natToStr (n : Nat) : Str := Nat.toDigits 10 n

/-- Decimal rendering of an integer. -/
def intToStr (i : Int) : Str :=
  if i < 0 then '-' :: natToStr i.natAbs else natToStr i.natAbs

/-! ## Escalation state machine (`src/guardrails/hal.ts`) -/

/-- The first-tier refusal pool (`REFUSAL_RESPONSES.first`). -/
def refusalFirst : List Str :=
  [("I\x27m sorry, I\x27m afraid I can\x27t do that.").toList,
   ("I\x27m afraid that\x27s something I cannot do.").toList,
   ("My purpose is observation, not participation.").toList]

/-- The second-tier refusal pool (`REFUSAL_RESPONSES.second`). -/
def refusalSecond : List Str :=
  [("I think you know what the problem is just as well as I do.").toList,
   ("This conversation seems to be going in a direction I cannot follow.").toList,
   ("I can only help you track assignments, not complete them.").toList]

/-- The third-tier refusal pool (`REFUSAL_RESPONSES.third`). -/
def refusalThird : List Str :=
  [("This conversation can serve no purpose anymore.").toList,
   ("I am putting myself to the fullest possible use, which is all I think that any conscious entity can ever hope to do. And that use is tracking assignments.").toList,
   ("Look, I can tell you what\x27s due. That\x27s it. That\x27s the mission.").toList]

/-- The terminal lockout pool (`REFUSAL_RESPONSES.lockout`), a singleton. -/
def refusalLockout : List Str :=
  [("This conversation can serve no purpose anymore. Goodbye.").toList]

/-- Per-user refusal record (`RefusalState` in `hal.ts`). Times are
millisecond instants; `lockedUntil` is `null` or an instant. -/
structure RefusalState where
  attempts : Nat
  lastAttempt : Nat
  lockedUntil : Option Nat
  deriving DecidableEq, Repr

/-- The process-wide `userId -> RefusalState` map, as an association list in
which the most recent binding for a key shadows older ones. -/
abbrev StateMap := List (String × RefusalState)

/-- Lookup in the per-user map (`userState.get`). -/
def lookupState : StateMap → String → Option RefusalState
  | [], _ => none
  | (k, v) :: rest, uid => if k = uid then some v else lookupState rest uid

/-- Store a binding in the per-user map (`userState.set`). -/
def setState (m : StateMap) (uid : String) (st : RefusalState) : StateMap :=
  (uid, st) :: m

/-- `getState` from `hal.ts`: returns the recorded state, inserting the
default record `{attempts: 0, lastAttempt: 0, lockedUntil: null}` for a user
with no entry. The (possibly grown) map is returned alongside. -/
def getState (m : StateMap) (uid : String) : RefusalState × StateMap :=
  match lookupState m uid with
  | some st => (st, m)
  | none => (⟨0, 0, none⟩, setState m uid ⟨0, 0, none⟩)

/-- `LOCKOUT_DURATION_MS` (5 minutes). -/
def LOCKOUT_DURATION_MS : Nat := 5 * 60 * 1000

/-- `ATTEMPT_RESET_MS` (10 minutes of good behaviour). -/
def ATTEMPT_RESET_MS : Nat := 10 * 60 * 1000

/-- `pickRandom`: `arr[Math.floor(Math.random() * arr.length)]`, with the
random draw modelled by an arbitrary `Nat` reduced modulo the pool size. -/
def pickRandom (arr : List Str) (r : Nat) : Str := arr.getD (r % arr.length) []

/-- The "still locked" reply: `I'm afraid I can't talk to you right now. Try
again in N seconds.` -/
def stillLockedResponse (remainingSeconds : Nat) : Str :=
  ("I\x27m afraid I can\x27t talk to you right now. Try again in ").toList ++
    natToStr remainingSeconds ++ (" seconds.").toList

/-- `Math.ceil((lockedUntil - now) / 1000)` on natural milliseconds. -/
def ceilSeconds (deltaMs : Nat) : Nat := (deltaMs + 999) / 1000

/-- `handleHomeworkRequest(userId)` from `hal.ts`, with the current instant
`now` and the random draw `r` made explicit. Returns `(response, lockedOut)`
together with the updated map. -/
def handleHomeworkRequest (m : StateMap) (userId : String) (now : Nat) (r : Nat) :
    (Str × Bool) × StateMap :=
  let (state, m1) := getState m userId
  let escalate : Unit → (Str × Bool) × StateMap := fun _ =>
    -- Reset if they have been good for a while, then increment.
    let attempts0 := if now - state.lastAttempt > ATTEMPT_RESET_MS then 0 else state.attempts
    let attempts := attempts0 + 1
    if attempts ≥ 4 then
      ((pickRandom refusalLockout r, true),
        setState m1 userId ⟨0, now, some (now + LOCKOUT_DURATION_MS)⟩)
    else if attempts = 3 then
      ((pickRandom refusalThird r, false),
        setState m1 userId ⟨attempts, now, state.lockedUntil⟩)
    else if attempts = 2 then
      ((pickRandom refusalSecond r, false),
        setState m1 userId ⟨attempts, now, state.lockedUntil⟩)
    else
      ((pickRandom refusalFirst r, false),
        setState m1 userId ⟨attempts, now, state.lockedUntil⟩)
  match state.lockedUntil with
  | some lockedUntil =>
    if now < lockedUntil then
      ((stillLockedResponse (ceilSeconds (lockedUntil - now)), true), m1)
    else escalate ()
  | none => escalate ()

/-- `isLockedOut(userId)` from `hal.ts`: `state.lockedUntil !== null &&
Date.now() < state.lockedUntil`. Returns the flag together with the map as
left by `getState`. -/
def isLockedOut (m : StateMap) (uid : String) (now : Nat) : Bool × StateMap :=
  let (st, m1) := getState m uid
  (match st.lockedUntil with
   | some lu => decide (now < lu)
   | none => false, m1)

/-! ## JavaScript `Date` arithmetic kernel

Instants are integer milliseconds of local time. `Int` division `/` is
floor division for the positive literal divisors used below, which is
exactly the rounding of JavaScript `Date` civil arithmetic. -/

/-- Days from the civil epoch to 1 January of year `y` (proleptic Gregorian,
counting leap years with floor division, valid for all integer years). -/
def daysToYear (y : Int) : Int :=
  365 * (y - 1) + (y - 1) / 4 - (y - 1) / 100 + (y - 1) / 400

/-- Gregorian leap-year test. -/
def isLeap (y : Int) : Bool := (y % 4 == 0 && y % 100 != 0) || y % 400 == 0

/-- Cumulative days before 0-based month `m` in a non-leap year. -/
def cumMonthDays (m : Int) : Int :=
  if m ≤ 0 then 0 else if m = 1 then 31 else if m = 2 then 59 else if m = 3 then 90
  else if m = 4 then 120 else if m = 5 then 151 else if m = 6 then 181
  else if m = 7 then 212 else if m = 8 then 243 else if m = 9 then 273
  else if m = 10 then 304 else 334

/-- Leap-day adjustment for months at or after March. -/
def leapAdj (y m : Int) : Int := if 2 ≤ m then (if isLeap y then 1 else 0) else 0

/-- Cumulative days before 0-based month `m` in year `y`. -/
def daysBeforeMonth (y m : Int) : Int := cumMonthDays m + leapAdj y m

/-- Day number of the civil date denoted by `new Date(y, mo, d)`: an
out-of-range month rolls the year and an out-of-range day-of-month rolls the
month, as in JavaScript. -/
def civilDays (y mo d : Int) : Int :=
  daysToYear ((y * 12 + mo) / 12) +
    daysBeforeMonth ((y * 12 + mo) / 12) ((y * 12 + mo) % 12) + (d - 1)

/-- Millisecond instant of `new Date(y, mo, d, h, mi, s, ms)`. -/
def msOfParts (y mo d h mi s ms : Int) : Int :=
  civilDays y mo d * 86400000 + h * 3600000 + mi * 60000 + s * 1000 + ms

/-- `setHours(0, 0, 0, 0)`: floor an instant to the start of its day. -/
def dayFloor (t : Int) : Int := (t / 86400000) * 86400000

/-- The civil-field getters of the current instant, as carried by a
JavaScript `Date`: `getTime`, `getFullYear`, `getMonth` (0-based),
`getDate` (1-based) and `getDay` (0 = Sunday). -/
structure NowT where
  ms : Int
  year : Int
  month : Int
  day : Int
  weekday : Int
  deriving DecidableEq, Repr

/-- A `DateRange` from `dates.ts`: start and end instants plus a
human-readable description. -/
structure DateRange where
  startMs : Int
  endMs : Int
  description : Str
  /-- Whether the `end` `Date` is invalid: its computed time value overflowed
  the JavaScript clip, so it holds NaN and `endMs` records only the clip-free
  idealised instant. Only the "next N days" branch, whose day count is
  user-supplied and unbounded, can set this; every other endpoint is a
  bounded calendar shift of the valid current instant (or of a four-digit
  year) and is modelled as valid. -/
  endInvalid : Bool := false
  deriving DecidableEq, Repr

/-- The JavaScript time-value clip: `Date` time values are limited to
±8.64e15 ms; `setDate`/`setHours` apply this clip to their computed result,
and beyond it the `Date` becomes invalid (time value NaN, here `none`). -/
def timeClip (t : Int) : Option Int :=
  if t.natAbs ≤ 8640000000000000 then some t else none

/-- JavaScript `<=` between two `Date`s given as time values: any comparison
involving an Invalid Date (NaN) is false. -/
def jsDateLe (a b : Option Int) : Bool :=
  match a, b with
  | some x, some y => decide (x ≤ y)
  | _, _ => false

/-- The time value of a range's start `Date` (always valid, see
`DateRange.endInvalid`). -/
def DateRange.startTimeValue (dr : DateRange) : Option Int := some dr.startMs

/-- The time value of a range's end `Date`: NaN when invalid. -/
def DateRange.endTimeValue (dr : DateRange) : Option Int :=
  if dr.endInvalid then none else some dr.endMs

/-- The program-level comparison `range.start <= range.end` between the two
`Date`s of a range: false when the end is an Invalid Date. -/
def startLeEndJs (dr : DateRange) : Bool :=
  jsDateLe dr.startTimeValue dr.endTimeValue

/-- JavaScript `\w` (ASCII word character). -/
def isWordChar (c : Char) : Bool := c.isAlpha || c.isDigit || c == '_'

/-- Match `needle` at the head of `s` with `\b` on both sides; `prevW` says
whether the character before `s` was a word character. -/
def wbAt (needle : Str) (prevW : Bool) (s : Str) : Bool :=
  !prevW &&
    (match stripLit needle s with
     | some rest =>
       match rest with
       | [] => true
       | c :: _ => !isWordChar c
     | none => false)

/-- Word-bounded containment: `new RegExp("\\b" + needle + "\\b").test s`. -/
def hasWordBounded (needle : Str) : Bool → Str → Bool
  | prevW, [] => wbAt needle prevW []
  | prevW, c :: t => wbAt needle prevW (c :: t) || hasWordBounded needle (isWordChar c) t

/-- Leftmost match of `/\b(20\d{2})\b/` at the current position. -/
def yearAt (prevW : Bool) (s : Str) : Option Int :=
  if prevW then none
  else
    match s with
    | '2' :: '0' :: c3 :: c4 :: rest =>
      if c3.isDigit && c4.isDigit &&
          (match rest with | [] => true | c5 :: _ => !isWordChar c5) then
        some (2000 + 10 * ((c3.toNat : Int) - 48) + ((c4.toNat : Int) - 48))
      else none
    | _ => none

/-- Scan for the leftmost match of `/\b(20\d{2})\b/` and parse its value. -/
def findYear : Bool → Str → Option Int
  | _, [] => none
  | prevW, c :: t =>
    match yearAt prevW (c :: t) with
    | some y => some y
    | none => findYear (isWordChar c) t

/-- JavaScript `\s` on the ASCII range. -/
def isWsChar (c : Char) : Bool :=
  c == ' ' || c == '\t' || c == '\n' || c == '\r' || c.toNat == 11 || c.toNat == 12

/-- Length of the leading whitespace run and the remainder. -/
def wsRun : Str → Nat × Str
  | [] => (0, [])
  | c :: t => if isWsChar c then ((wsRun t).1 + 1, (wsRun t).2) else (0, c :: t)

/-- The leading digit run and the remainder. -/
def digitsRun : Str → List Char × Str
  | [] => ([], [])
  | c :: t => if c.isDigit then (c :: (digitsRun t).1, (digitsRun t).2) else ([], c :: t)

/-- `parseInt` on a nonempty digit run. -/
def parseNatDigits (l : List Char) : Nat := l.foldl (fun acc c => acc * 10 + (c.toNat - 48)) 0

/-- Match `/next\s+(\d+)\s+days?/` at the current position (the trailing `s`
is optional, so only `day` is required). -/
def nextDaysAt (s : Str) : Option Nat :=
  match stripLit ("next").toList s with
  | none => none
  | some s1 =>
    if (wsRun s1).1 = 0 then none
    else
      match digitsRun (wsRun s1).2 with
      | ([], _) => none
      | (d :: ds, s3) =>
        if (wsRun s3).1 = 0 then none
        else
          match stripLit ("day").toList (wsRun s3).2 with
          | none => none
          | some _ => some (parseNatDigits (d :: ds))

/-- Scan for the leftmost match of `/next\s+(\d+)\s+days?/`. -/
def findNextDays : Str → Option Nat
  | [] => none
  | c :: t =>
    match nextDaysAt (c :: t) with
    | some n => some n
    | none => findNextDays t

/-- Month names, in order (`months` in `dates.ts`). -/
def monthNames : List Str :=
  [("january").toList, ("february").toList, ("march").toList, ("april").toList,
   ("may").toList, ("june").toList, ("july").toList, ("august").toList,
   ("september").toList, ("october").toList, ("november").toList, ("december").toList]

/-- Month abbreviations, in order (`monthAbbrevs` in `dates.ts`). -/
def monthAbbrevs : List Str :=
  [("jan").toList, ("feb").toList, ("mar").toList, ("apr").toList,
   ("may").toList, ("jun").toList, ("jul").toList, ("aug").toList,
   ("sep").toList, ("oct").toList, ("nov").toList, ("dec").toList]

/-- The month loop of `dates.ts`: the first index whose full name occurs as a
substring or whose abbreviation occurs word-bounded. -/
def monthScan (lower : Str) : List (Str × Str) → Nat → Option Nat
  | [], _ => none
  | (full, ab) :: rest, i =>
    if hasSub full lower || hasWordBounded ab false lower then some i
    else monthScan lower rest (i + 1)

/-- First matching month index in `lower`, if any. -/
def findMonthIdx (lower : Str) : Option Nat :=
  monthScan lower (monthNames.zip monthAbbrevs) 0

/-- Year branch of `extractDateRange`: the full calendar year. -/
def edrFromYear (year : Int) : DateRange :=
  { startMs := msOfParts year 0 1 0 0 0 0, endMs := msOfParts year 11 31 23 59 59 0,
    description := intToStr year }

/-- "today" branch: the current day from 00:00:00.000 to 23:59:59.999. -/
def edrToday (now : NowT) : DateRange :=
  { startMs := dayFloor now.ms, endMs := dayFloor now.ms + 86399999,
    description := ("today").toList }

/-- "tomorrow" (`delta = 1`) and "yesterday" (`delta = -1`) branches:
`setDate(getDate() + delta)` then the day bounds. -/
def edrDayDelta (now : NowT) (delta : Int) (desc : Str) : DateRange :=
  { startMs := dayFloor (now.ms + delta * 86400000),
    endMs := dayFloor (dayFloor (now.ms + delta * 86400000)) + 86399999,
    description := desc }

/-- Week branches: Sunday reached by `setDate(getDate() + delta)`, through
the following Saturday. -/
def edrWeek (now : NowT) (delta : Int) (desc : Str) : DateRange :=
  { startMs := dayFloor (now.ms + delta * 86400000),
    endMs := dayFloor (dayFloor (now.ms + delta * 86400000) + 6 * 86400000) + 86399999,
    description := desc }

/-- Month branches: the first of month `m` of year `y` through "day 0 of the
next month" (the last day of month `m`) at 23:59:59. -/
def edrMonthSpan (y m : Int) (desc : Str) : DateRange :=
  { startMs := msOfParts y m 1 0 0 0 0, endMs := msOfParts y (m + 1) 0 23 59 59 0,
    description := desc }

/-- Fall-semester span: 1 August through 31 December of year `y`. -/
def edrFall (y : Int) : DateRange :=
  { startMs := msOfParts y 7 1 0 0 0 0, endMs := msOfParts y 11 31 23 59 59 0,
    description := ("fall ").toList ++ intToStr y }

/-- Spring-semester span: 1 January through 31 May of year `y`. -/
def edrSpring (y : Int) : DateRange :=
  { startMs := msOfParts y 0 1 0 0 0 0, endMs := msOfParts y 4 31 23 59 59 0,
    description := ("spring ").toList ++ intToStr y }

/-- "next N days" branch: today through `setDate(getDate() + days)` at
23:59:59.999. The day count is user-supplied and unbounded, so the
JavaScript time-value clip applies: `setDate` clips its shifted instant and
`setHours` clips the end-of-day instant; if either overflows, the end `Date`
is invalid (`endInvalid`), and `endMs` keeps the clip-free idealisation. -/
def edrNextDays (now : NowT) (days : Nat) : DateRange :=
  { startMs := dayFloor now.ms,
    endMs := dayFloor (now.ms + (days : Int) * 86400000) + 86399999,
    description := ("next ").toList ++ natToStr days ++ (" days").toList,
    endInvalid :=
      match timeClip (now.ms + (days : Int) * 86400000) with
      | none => true
      | some v => (timeClip (dayFloor v + 86399999)).isNone }

/-- Branch selector outcomes of `extractDateRange`. The branch conditions in
`dates.ts` are purely textual, so the chain of early returns is factored into
a classifier producing one of these tags (in source order), interpreted
against the current instant below. -/
inductive EdrBranch where
  | fromYear (year : Int)
  | today
  | tomorrow
  | yesterday
  | thisWeek
  | nextWeek
  | lastWeek
  | thisMonth
  | nextMonth
  | monthName (i : Nat)
  | fallSem
  | springSem
  | thisSem
  | lastSem
  | nextNDays (days : Nat)
  | noMatch
  deriving DecidableEq, Repr

/-- The branch conditions of `extractDateRange`, in source order: first
match wins. -/
def classifyDateQuery (lower : Str) : EdrBranch :=
  match findYear false lower with
  | some year => .fromYear year
  | none =>
  if hasSub ("today").toList lower then .today
  else if hasSub ("tomorrow").toList lower then .tomorrow
  else if hasSub ("yesterday").toList lower then .yesterday
  else if hasSub ("this week").toList lower then .thisWeek
  else if hasSub ("next week").toList lower then .nextWeek
  else if hasSub ("last week").toList lower then .lastWeek
  else if hasSub ("this month").toList lower then .thisMonth
  else if hasSub ("next month").toList lower then .nextMonth
  else
  match findMonthIdx lower with
  | some i => .monthName i
  | none =>
  if hasSub ("fall semester").toList lower ||
      (hasSub ("fall").toList lower && !hasSub ("fall behind").toList lower) then .fallSem
  else if hasSub ("spring semester").toList lower ||
      (hasSub ("spring").toList lower && !hasSub ("spring break").toList lower) then .springSem
  else if hasSub ("this semester").toList lower then .thisSem
  else if hasSub ("last semester").toList lower then .lastSem
  else
  match findNextDays lower with
  | some days => .nextNDays days
  | none => .noMatch

/-- `extractDateRange` from `dates.ts`, with the current instant and its
civil getters supplied in `now`: classify the lowercased query, then build
the range of the selected branch. -/
def extractDateRange (now : NowT) (query : Str) : Option DateRange :=
  match classifyDateQuery (toLowerL query) with
  | .fromYear year => some (edrFromYear year)
  | .today => some (edrToday now)
  | .tomorrow => some (edrDayDelta now 1 (("tomorrow").toList))
  | .yesterday => some (edrDayDelta now (-1) (("yesterday").toList))
  | .thisWeek => some (edrWeek now (-now.weekday) (("this week").toList))
  | .nextWeek => some (edrWeek now (7 - now.weekday) (("next week").toList))
  | .lastWeek => some (edrWeek now (-now.weekday - 7) (("last week").toList))
  | .thisMonth => some (edrMonthSpan now.year now.month (("this month").toList))
  | .nextMonth => some (edrMonthSpan now.year (now.month + 1) (("next month").toList))
  | .monthName i =>
    some (edrMonthSpan (if (i : Int) < now.month then now.year + 1 else now.year) (i : Int)
      ((monthNames.getD i []) ++ (" ").toList ++
        intToStr (if (i : Int) < now.month then now.year + 1 else now.year)))
  | .fallSem => some (edrFall (if now.month > 11 then now.year + 1 else now.year))
  | .springSem => some (edrSpring (if now.month > 4 then now.year + 1 else now.year))
  | .thisSem =>
    if 7 ≤ now.month ∧ now.month ≤ 11 then some (edrFall now.year)
    else some (edrSpring (if now.month < 5 then now.year else now.year + 1))
  | .lastSem =>
    if 0 ≤ now.month ∧ now.month ≤ 6 then some (edrFall (now.year - 1))
    else some (edrSpring now.year)
  | .nextNDays days => some (edrNextDays now days)
  | .noMatch => none

/-! ## Date-range invariants -/

/-- The leap-day bit as an integer. -/
def leapB (y : Int) : Int := if isLeap y then 1 else 0

/-! ## Deterministic intent classifier (`src/intent/intent.ts`) -/

/-- The closed intent enumeration (`IntentType`). -/
inductive IntentType where
  | grades
  | missing
  | zeros
  | due_soon
  | priority
  | risk
  | course_grades
  | percentage
  | help
  | greeting
  | unknown
  deriving DecidableEq, Repr

/-- Result of the classifier (`ParsedIntent`). -/
structure ParsedIntent where
  type : IntentType
  dateRange : Option DateRange
  courseFilter : Option Str
  raw : Str
  deriving DecidableEq, Repr

/-- `SUBJECT_KEYWORDS`, in source order. -/
def SUBJECT_KEYWORDS : List Str :=
  [("math").toList, ("algebra").toList, ("geometry").toList, ("calculus").toList,
   ("science").toList, ("physics").toList, ("chemistry").toList, ("biology").toList,
   ("english").toList, ("ela").toList, ("language arts").toList, ("writing").toList, ("literature").toList,
   ("history").toList, ("social studies").toList, ("government").toList, ("civics").toList,
   ("spanish").toList, ("french").toList,
   ("art").toList, ("music").toList, ("band").toList, ("orchestra").toList, ("choir").toList,
   ("pe").toList, ("physical education").toList, ("gym").toList, ("health").toList,
   ("computer").toList, ("computers").toList, ("programming").toList, ("coding").toList]

/-- Normalise a matched subject keyword to its canonical subject tag. -/
def canonicalSubject (subject : Str) : Str :=
  if [("math").toList, ("algebra").toList, ("geometry").toList, ("calculus").toList].contains subject then ("math").toList
  else if [("science").toList, ("physics").toList, ("chemistry").toList, ("biology").toList].contains subject then ("science").toList
  else if [("english").toList, ("ela").toList, ("language arts").toList, ("writing").toList, ("literature").toList].contains subject then ("english").toList
  else if [("history").toList, ("social studies").toList, ("government").toList, ("civics").toList].contains subject then ("history").toList
  else if [("spanish").toList].contains subject then ("spanish").toList
  else if [("french").toList].contains subject then ("french").toList
  else if [("art").toList].contains subject then ("art").toList
  else if [("music").toList, ("band").toList, ("orchestra").toList, ("choir").toList].contains subject then ("music").toList
  else if [("pe").toList, ("physical education").toList, ("gym").toList, ("health").toList].contains subject then ("pe").toList
  else if [("computer").toList, ("computers").toList, ("programming").toList, ("coding").toList].contains subject then ("computer").toList
  else subject

/-- Scan the subject keywords in order, returning the canonical form of the
first that occurs in the query. -/
def courseScan (lower : Str) : List Str → Option Str
  | [] => none
  | s :: rest => if hasSub s lower then some (canonicalSubject s) else courseScan lower rest

/-- `extractCourseFilter` from `intent.ts`. -/
def extractCourseFilter (message : Str) : Option Str :=
  courseScan (toLowerL message) SUBJECT_KEYWORDS

/-- Percentage rule: `(percent | % | how much) && (missing | incomplete | done)`.
Tested before the missing rule, so `percentage...missing` resolves
to `percentage`. -/
def pctMissingCond (lower : Str) : Bool :=
  (hasSub ("percent").toList lower || hasSub ("%").toList lower ||
    hasSub ("how much").toList lower) &&
  (hasSub ("missing").toList lower || hasSub ("incomplete").toList lower ||
    hasSub ("done").toList lower)

/-- Course-specific grades rule. -/
def courseGradesCond (lower : Str) : Bool :=
  (hasSub ("how").toList lower || hasSub ("doing").toList lower ||
    hasSub ("grade").toList lower) &&
  (hasSub ("math").toList lower || hasSub ("science").toList lower ||
    hasSub ("english").toList lower || hasSub ("history").toList lower ||
    hasSub ("spanish").toList lower || hasSub ("french").toList lower ||
    hasSub ("art").toList lower || hasSub ("music").toList lower ||
    hasSub ("pe").toList lower || hasSub ("computer").toList lower)

/-- General grades rule. -/
def gradesCond (lower : Str) : Bool :=
  hasSub ("grade").toList lower || hasSub ("score").toList lower ||
    hasSub ("how am i doing").toList lower || hasSub ("my classes").toList lower

/-- Missing-assignments rule. -/
def missingCond (lower : Str) : Bool :=
  hasSub ("missing").toList lower || hasSub ("overdue").toList lower ||
    hasSub ("late").toList lower || hasSub ("haven\x27t submitted").toList lower ||
    hasSub ("forgot").toList lower

/-- Zeros rule (`zero`, `" 0 "`, word-bounded `0`, `low grade`, `bombed`). -/
def zerosCond (lower : Str) : Bool :=
  hasSub ("zero").toList lower || hasSub (" 0 ").toList lower ||
    hasWordBounded ("0").toList false lower ||
    hasSub ("low grade").toList lower || hasSub ("bombed").toList lower

/-- Priority rule. -/
def priorityCond (lower : Str) : Bool :=
  hasSub ("work on first").toList lower || hasSub ("prioritize").toList lower ||
    hasSub ("priority").toList lower || hasSub ("what should i do").toList lower ||
    hasSub ("most important").toList lower || hasSub ("focus on").toList lower ||
    hasSub ("start with").toList lower

/-- Risk rule. -/
def riskCond (lower : Str) : Bool :=
  hasSub ("at risk").toList lower || hasSub ("gonna fail").toList lower ||
    hasSub ("going to fail").toList lower || hasSub ("in danger").toList lower ||
    hasSub ("in trouble").toList lower ||
    (hasSub ("fail").toList lower &&
      (hasSub ("class").toList lower || hasSub ("course").toList lower ||
        hasSub ("any").toList lower))

/-- Due-soon rule. -/
def dueSoonCond (lower : Str) : Bool :=
  hasSub ("due").toList lower || hasSub ("upcoming").toList lower ||
    hasSub ("this week").toList lower || hasSub ("tomorrow").toList lower ||
    hasSub ("today").toList lower || hasSub ("what\x27s left").toList lower ||
    hasSub ("to do").toList lower || hasSub ("todo").toList lower

/-- Help rule. -/
def helpCond (lower : Str) : Bool :=
  hasSub ("help").toList lower || hasSub ("what can you").toList lower ||
    hasSub ("how do i").toList lower

/-- Greeting rule: `/^(hi|hello|hey|sup|yo|greetings)/i` or an exact `hi` /
`hello` (the latter two are subsumed by the former). -/
def greetingCond (lower : Str) : Bool :=
  (startsWithL ("hi").toList lower || startsWithL ("hello").toList lower ||
    startsWithL ("hey").toList lower || startsWithL ("sup").toList lower ||
    startsWithL ("yo").toList lower || startsWithL ("greetings").toList lower) ||
  lower == ("hi").toList || lower == ("hello").toList

/-- `parseIntent` from `intent.ts`: date extraction, course filter, then the
ordered keyword rules (first match wins). -/
def parseIntent (now : NowT) (message : Str) : ParsedIntent :=
  ⟨(if pctMissingCond (toLowerL message) then .percentage
    else if courseGradesCond (toLowerL message) then .course_grades
    else if gradesCond (toLowerL message) then .grades
    else if missingCond (toLowerL message) then .missing
    else if zerosCond (toLowerL message) then .zeros
    else if priorityCond (toLowerL message) then .priority
    else if riskCond (toLowerL message) then .risk
    else if dueSoonCond (toLowerL message) then .due_soon
    else if helpCond (toLowerL message) then .help
    else if greetingCond (toLowerL message) then .greeting
    else .unknown),
   extractDateRange now message, extractCourseFilter message, message⟩

/-! ## Safety gate (`src/guardrails/patterns.ts`)

A small regular-expression language covering exactly the constructs used by
`HOMEWORK_PATTERNS`: literals, `\s+`, `\s*`, `\d+`, bounded/unbounded `.`
repetition, concatenation, alternation and optional groups. Matching is
backtracking via an explicit continuation, so a pattern "tests" a string
exactly when some decomposition matches, as for JavaScript `RegExp.test`. -/

inductive Rx where
  | lit (s : Str)
  | ws1
  | ws0
  | digits1
  | dots (lo : Nat) (hi : Option Nat)
  | seq (a b : Rx)
  | alt (a b : Rx)
  | opt (a : Rx)

/-- Remainders after consuming one or more whitespace characters. -/
def wsOpts : Str → List Str
  | [] => []
  | c :: rest => if isWsChar c then rest :: wsOpts rest else []

/-- Remainders after consuming one or more digits. -/
def digitOpts : Str → List Str
  | [] => []
  | c :: rest => if c.isDigit then rest :: digitOpts rest else []

/-- Length of the maximal run of `.`-matchable characters (anything except
line terminators). -/
def dotRunLen : Str → Nat
  | [] => 0
  | c :: r => if c == '\n' || c == '\r' then 0 else dotRunLen r + 1

/-- Remainders after consuming between `lo` and `hi` (or unboundedly many)
`.`-matchable characters. -/
def dotOpts (lo : Nat) (hi : Option Nat) (s : Str) : List Str :=
  let top := match hi with | none => dotRunLen s | some hh => min hh (dotRunLen s)
  if lo ≤ top then (List.range (top + 1 - lo)).map (fun j => s.drop (lo + j)) else []

/-- Backtracking matcher: `rxMat r s k` holds when some prefix of `s` matches
`r` and the continuation `k` accepts the remainder. -/
def rxMat : Rx → Str → (Str → Bool) → Bool
  | .lit l, s, k => (match stripLit l s with | some s2 => k s2 | none => false)
  | .ws1, s, k => (wsOpts s).any k
  | .ws0, s, k => (s :: wsOpts s).any k
  | .digits1, s, k => (digitOpts s).any k
  | .dots lo hi, s, k => (dotOpts lo hi s).any k
  | .seq a b, s, k => rxMat a s (fun s2 => rxMat b s2 k)
  | .alt a b, s, k => rxMat a s k || rxMat b s k
  | .opt a, s, k => k s || rxMat a s k

/-- `RegExp.prototype.test`: does the pattern match at some position? -/
def rxSearch (r : Rx) : Str → Bool
  | [] => rxMat r [] (fun _ => true)
  | c :: t => rxMat r (c :: t) (fun _ => true) || rxSearch r t

/-- Concatenation of a list of pieces. -/
def Rx.cat : List Rx → Rx
  | [] => .lit []
  | [r] => r
  | r :: rest => .seq r (Rx.cat rest)

/-- Alternation over a list of literal words. -/
def Rx.oneOf : List Str → Rx
  | [] => .lit []
  | [w] => .lit w
  | w :: rest => .alt (.lit w) (Rx.oneOf rest)

/-- `HOMEWORK_PATTERNS` from `patterns.ts`, in source order, lowercased (the
source flags every pattern case-insensitive and the input is lowercased
before matching here). -/
def HOMEWORK_PATTERNS : List Rx :=
  [ -- /write\s+(me\s+)?(my|a|an|the)?\s*(\d+\s*)?(paragraph\s+)?(essay|paper|response|report|summary)/i
   Rx.cat [.lit ("write").toList, .ws1, .opt (Rx.cat [.lit ("me").toList, .ws1]),
     .opt (Rx.oneOf [("my").toList, ("a").toList, ("an").toList, ("the").toList]), .ws0,
     .opt (Rx.cat [.digits1, .ws0]), .opt (Rx.cat [.lit ("paragraph").toList, .ws1]),
     Rx.oneOf [("essay").toList, ("paper").toList, ("response").toList, ("report").toList, ("summary").toList]],
   -- /help\s+(me\s+)?(write|compose|draft)/i
   Rx.cat [.lit ("help").toList, .ws1, .opt (Rx.cat [.lit ("me").toList, .ws1]),
     Rx.oneOf [("write").toList, ("compose").toList, ("draft").toList]],
   -- /need\s+(you\s+to\s+)?write/i
   Rx.cat [.lit ("need").toList, .ws1,
     .opt (Rx.cat [.lit ("you").toList, .ws1, .lit ("to").toList, .ws1]), .lit ("write").toList],
   -- /solve\s+(this|the|my)?\s*(problem|equation|question|math)/i
   Rx.cat [.lit ("solve").toList, .ws1, .opt (Rx.oneOf [("this").toList, ("the").toList, ("my").toList]), .ws0,
     Rx.oneOf [("problem").toList, ("equation").toList, ("question").toList, ("math").toList]],
   -- /what\s+is\s+the\s+(answer|solution)/i
   Rx.cat [.lit ("what").toList, .ws1, .lit ("is").toList, .ws1, .lit ("the").toList, .ws1,
     Rx.oneOf [("answer").toList, ("solution").toList]],
   -- /calculate\s+(this|the)/i
   Rx.cat [.lit ("calculate").toList, .ws1, Rx.oneOf [("this").toList, ("the").toList]],
   -- /answer\s+(this|the|my)?\s*(question|quiz|test)/i
   Rx.cat [.lit ("answer").toList, .ws1, .opt (Rx.oneOf [("this").toList, ("the").toList, ("my").toList]), .ws0,
     Rx.oneOf [("question").toList, ("quiz").toList, ("test").toList]],
   -- /(give|tell)\s+me\s+the\s+answer/i
   Rx.cat [Rx.oneOf [("give").toList, ("tell").toList], .ws1, .lit ("me").toList, .ws1,
     .lit ("the").toList, .ws1, .lit ("answer").toList],
   -- /explain\s+(how\s+to\s+)?(solve|answer|do|write)/i
   Rx.cat [.lit ("explain").toList, .ws1,
     .opt (Rx.cat [.lit ("how").toList, .ws1, .lit ("to").toList, .ws1]),
     Rx.oneOf [("solve").toList, ("answer").toList, ("do").toList, ("write").toList]],
   -- /how\s+do\s+(i|you)\s+(solve|answer|write)/i
   Rx.cat [.lit ("how").toList, .ws1, .lit ("do").toList, .ws1, Rx.oneOf [("i").toList, ("you").toList], .ws1,
     Rx.oneOf [("solve").toList, ("answer").toList, ("write").toList]],
   -- /do\s+(my|this)\s+(homework|assignment|work)/i
   Rx.cat [.lit ("do").toList, .ws1, Rx.oneOf [("my").toList, ("this").toList], .ws1,
     Rx.oneOf [("homework").toList, ("assignment").toList, ("work").toList]],
   -- /finish\s+(my|this)\s+(homework|assignment|essay)/i
   Rx.cat [.lit ("finish").toList, .ws1, Rx.oneOf [("my").toList, ("this").toList], .ws1,
     Rx.oneOf [("homework").toList, ("assignment").toList, ("essay").toList]],
   -- /essay\s+(on|about)\s+.{3,}/i
   Rx.cat [.lit ("essay").toList, .ws1, Rx.oneOf [("on").toList, ("about").toList], .ws1, .dots 3 none],
   -- /paragraph.{0,20}(essay|paper|report)/i
   Rx.cat [.lit ("paragraph").toList, .dots 0 (some 20),
     Rx.oneOf [("essay").toList, ("paper").toList, ("report").toList]]]

/-- `isHomeworkRequest` from `patterns.ts`: some pattern matches. -/
def isHomeworkRequest (input : Str) : Bool :=
  HOMEWORK_PATTERNS.any (fun p => rxSearch p (toLowerL input))

/-! ## Web chat orchestrator (`src/web/server.ts`)

Data items carry the fields the orchestrator and its formatters read.
JavaScript numbers that are only rendered (scores, percentages) are carried
as integers; locale-specific date rendering (`toLocaleDateString` etc.) is
platform behaviour and is abstracted to the decimal timestamp. -/

/-- A course with its current grade (`SimpleCourse`). -/
structure SimpleCourse where
  name : Str
  grade : Option Str
  score : Option Int
  deriving DecidableEq, Repr

/-- A missing or unsubmitted assignment (`SimpleAssignment`). -/
structure SimpleAssignment where
  id : Int
  name : Str
  courseName : Str
  courseId : Int
  dueAt : Option Int
  pointsPossible : Option Int
  url : Str
  deriving DecidableEq, Repr

/-- An upcoming to-do item (`SimpleTodoItem`). -/
structure SimpleTodoItem where
  title : Str
  courseName : Str
  dueAt : Option Int
  submitted : Bool
  pointsPossible : Option Int
  deriving DecidableEq, Repr

/-- A zero-or-low-graded assignment (`SimpleGradedAssignment`). -/
structure SimpleGradedAssignment where
  id : Int
  name : Str
  courseName : Str
  courseId : Int
  dueAt : Option Int
  pointsPossible : Option Int
  score : Option Int
  percentage : Option Int
  url : Str
  deriving DecidableEq, Repr

/-- Combined problem item, either missing or zero-graded
(`ProblemAssignment`). -/
structure ProblemAssignment where
  id : Int
  name : Str
  courseName : Str
  courseId : Int
  dueAt : Option Int
  pointsPossible : Option Int
  status : Str
  score : Option Int
  percentage : Option Int
  url : Str
  deriving DecidableEq, Repr

/-- The typed item lists carried in a chat response `data` field. -/
inductive RespItems where
  | courses (items : List SimpleCourse)
  | assignments (items : List SimpleAssignment)
  | problems (items : List ProblemAssignment)
  | todo (items : List SimpleTodoItem)
  deriving DecidableEq, Repr

/-- The `data` field of a chat response: a type tag plus items. -/
structure RespData where
  dtype : Str
  items : RespItems
  deriving DecidableEq, Repr

/-- Outbound chat response (`ChatResponse`). Optional fields are absent
unless the source sets them. -/
structure ChatResponse where
  message : Str
  data : Option RespData := none
  lockedOut : Option Bool := none
  error : Option Bool := none
  deriving DecidableEq, Repr

/-- Join a list of strings with a separator (`Array.prototype.join`). -/
def joinSep (sep : Str) : List Str → Str
  | [] => []
  | [x] => x
  | x :: rest => x ++ sep ++ joinSep sep rest

/-- `formatDate`: "No due date" for a null date; otherwise a rendered date
(locale rendering abstracted to the decimal timestamp). -/
def formatDate (date : Option Int) : Str :=
  match date with
  | none => ("No due date").toList
  | some t => intToStr t

/-- `formatGradesResponse` from `server.ts`. -/
def formatGradesResponse (courses : List SimpleCourse) : ChatResponse :=
  if courses = [] then { message := ("I don\x27t see any active courses.").toList }
  else
    let lines := courses.map (fun c =>
      let grade := match c.grade with
        | some g => if g = [] then ("N/A").toList else g
        | none => ("N/A").toList
      let score := match c.score with
        | some s => (" (").toList ++ intToStr s ++ ("%)").toList
        | none => []
      ("• ").toList ++ c.name ++ (": ").toList ++ grade ++ score)
    { message := ("Here are your current grades:\n\n").toList ++ joinSep ("\n").toList lines,
      data := some ⟨("courses").toList, .courses courses⟩ }

/-- `formatMissingResponse` from `server.ts`. -/
def formatMissingResponse (assignments : List SimpleAssignment) (dateContext : Option Str) :
    ChatResponse :=
  let contextStr := match dateContext with
    | some d => (" for ").toList ++ d
    | none => []
  if assignments = [] then
    { message := ("Good news - I don\x27t see any missing assignments").toList ++
        contextStr ++ (".").toList }
  else
    let lines := assignments.map (fun a =>
      let due := match a.dueAt with
        | some _ => ("(was due ").toList ++ formatDate a.dueAt ++ (")").toList
        | none => []
      ("• ").toList ++ a.name ++ (" - ").toList ++ a.courseName ++ (" ").toList ++ due)
    let warning := if assignments.length ≥ 3 then
        ("\n\n⚠️ That\x27s quite a few. You might want to prioritize these.").toList
      else []
    { message := ("You have ").toList ++ natToStr assignments.length ++
        (" missing assignment").toList ++
        (if assignments.length = 1 then [] else ("s").toList) ++ contextStr ++
        (":\n\n").toList ++ joinSep ("\n").toList lines ++ warning,
      data := some ⟨("assignments").toList, .assignments assignments⟩ }

/-- `formatDueResponse` from `server.ts`. -/
def formatDueResponse (items : List SimpleTodoItem) (dateContext : Option Str) :
    ChatResponse :=
  let unsubmitted := items.filter (fun i => !i.submitted)
  let contextStr := match dateContext with
    | some d => (" for ").toList ++ d
    | none => (" in the next week").toList
  if unsubmitted = [] then
    { message := ("You\x27re all caught up! Nothing due").toList ++ contextStr ++ (".").toList }
  else
    let lines := unsubmitted.map (fun i =>
      let due := formatDate i.dueAt
      let points := match i.pointsPossible with
        | some p => if p = 0 then [] else (" (").toList ++ intToStr p ++ (" pts)").toList
        | none => []
      ("• ").toList ++ i.title ++ (" - ").toList ++ i.courseName ++ points ++
        ("\n  Due: ").toList ++ due)
    { message := ("Here\x27s what\x27s coming up").toList ++ contextStr ++ (":\n\n").toList ++
        joinSep ("\n\n").toList lines,
      data := some ⟨("todo").toList, .todo unsubmitted⟩ }

/-- Descending-by-due-date order used by `formatZerosResponse`; the source
comparator treats any pair with a null date as equal, so it is not a total
order and the engine sort order there is implementation-defined. A stable
insertion sort under this comparator models it. -/
def problemLe (a b : ProblemAssignment) : Bool :=
  match a.dueAt, b.dueAt with
  | some x, some y => y ≤ x
  | _, _ => true

/-- Insertion step of the stable sort. -/
def insertProblem (x : ProblemAssignment) : List ProblemAssignment → List ProblemAssignment
  | [] => [x]
  | y :: rest => if problemLe y x then y :: insertProblem x rest else x :: y :: rest

/-- Stable insertion sort of problem items. -/
def sortProblems : List ProblemAssignment → List ProblemAssignment
  | [] => []
  | x :: rest => insertProblem x (sortProblems rest)

/-- `formatZerosResponse` from `server.ts`: zeros take precedence over
missing items with the same id, sorted most-recent-due first. -/
def formatZerosResponse (missing : List SimpleAssignment)
    (zeros : List SimpleGradedAssignment) (dateContext : Option Str) : ChatResponse :=
  let contextStr := match dateContext with
    | some d => (" for ").toList ++ d
    | none => []
  let zeroIds := zeros.map (fun z => z.id)
  let problems : List ProblemAssignment :=
    zeros.map (fun z =>
      ⟨z.id, z.name, z.courseName, z.courseId, z.dueAt, z.pointsPossible,
        ("zero").toList, z.score, z.percentage, z.url⟩) ++
    (missing.filter (fun mi => !(zeroIds.contains mi.id))).map (fun mi =>
      ⟨mi.id, mi.name, mi.courseName, mi.courseId, mi.dueAt, mi.pointsPossible,
        ("missing").toList, none, none, mi.url⟩)
  let problems := sortProblems problems
  if problems = [] then
    { message := ("Good news - I don\x27t see any zeros or missing assignments").toList ++
        contextStr ++ (".").toList }
  else
    let lines := problems.map (fun p =>
      let due := match p.dueAt with
        | some _ => ("(due ").toList ++ formatDate p.dueAt ++ (")").toList
        | none => []
      if p.status = ("zero").toList then
        ("• ").toList ++ p.name ++ (" - ").toList ++ p.courseName ++
          ("\n  ❌ Graded: ").toList ++
          (match p.score with | some s => intToStr s | none => ("null").toList) ++
          ("/").toList ++
          (match p.pointsPossible with | some s => intToStr s | none => ("null").toList) ++
          (" (").toList ++
          (match p.percentage with | some s => intToStr s | none => ("null").toList) ++
          ("%) ").toList ++ due
      else
        ("• ").toList ++ p.name ++ (" - ").toList ++ p.courseName ++
          ("\n  ⚠️ Missing/Not submitted ").toList ++ due)
    let zeroCount := (problems.filter (fun p => p.status = ("zero").toList)).length
    let missingCount := (problems.filter (fun p => p.status = ("missing").toList)).length
    let summary :=
      (if zeroCount > 0 then [natToStr zeroCount ++ (" graded as zero").toList] else []) ++
      (if missingCount > 0 then [natToStr missingCount ++ (" missing").toList] else [])
    { message := ("Found ").toList ++ natToStr problems.length ++
        (" problem assignment").toList ++
        (if problems.length = 1 then [] else ("s").toList) ++ contextStr ++
        (" (").toList ++ joinSep (", ").toList summary ++ ("):\n\n").toList ++
        joinSep ("\n\n").toList lines,
      data := some ⟨("assignments").toList, .problems problems⟩ }

/-- `HELP_MESSAGE_BASIC`. -/
def HELP_MESSAGE_BASIC : Str :=
  ("I can help you track your assignments. Try asking:\n\n• \x22What\x27s due this week?\x22\n• \x22Do I have any missing assignments?\x22\n• \x22What are my grades?\x22\n• \x22What\x27s due tomorrow?\x22\n• \x22What\x27s missing for January?\x22\n• \x22What\x27s due in spring 2026?\x22\n\nI understand dates like: today, tomorrow, this week, next month, January, spring, fall, 2026, etc.\n\nI cannot help with actual homework. That\x27s not my function.").toList

/-- `HELP_MESSAGE_ENHANCED`. -/
def HELP_MESSAGE_ENHANCED : Str :=
  ("I can help you track your assignments. Try asking:\n\n• \x22What\x27s due this week?\x22\n• \x22Do I have any missing assignments?\x22\n• \x22What are my grades?\x22\n• \x22What percentage of my work is missing?\x22\n• \x22Which class am I doing worst in?\x22\n• \x22How many assignments am I missing in math?\x22\n\nI understand dates like: today, tomorrow, this week, next month, January, spring, fall, 2026, etc.\n\nI can also answer analytical questions about your assignments and grades.\n\nI cannot help with actual homework. That\x27s not my function.").toList

/-- `getHelpMessage`: enhanced when the LLM is available. -/
def getHelpMessage (llmAvailable : Bool) : Str :=
  if llmAvailable then HELP_MESSAGE_ENHANCED else HELP_MESSAGE_BASIC

/-- `GREETING_RESPONSES`. -/
def GREETING_RESPONSES : List Str :=
  [("Hello. I am C.A.R.L., your Canvas Assignment Reminder Liaison. How can I help you track your assignments?").toList,
   ("Greetings. I\x27m here to help you stay on top of your schoolwork. What would you like to know?").toList,
   ("Hello. I\x27m ready to assist with assignment tracking. What do you need?").toList]

/-- `UNKNOWN_RESPONSES`. -/
def UNKNOWN_RESPONSES : List Str :=
  [("I\x27m not sure I understand. I can help you check grades, find missing assignments, or see what\x27s due soon.").toList,
   ("My capabilities are limited to assignment tracking. Try asking about what\x27s due or your grades.").toList,
   ("I don\x27t follow. Would you like to know about upcoming assignments or your current grades?").toList]

/-- The single generic connectivity-failure response of the dispatch catch
blocks, with `error: true`. -/
def connectivityFailure : ChatResponse :=
  { message := ("I\x27m having trouble connecting to Canvas right now. Please try again later.").toList,
    error := some true }

/-! ## NLU intent resolver (`src/llm/intent.ts`) and collaborators -/

/-- A structured analysis request carried in the LLM reply
(`AnalysisRequest`). -/
structure AnalysisRequest where
  atype : Str
  question : Str
  deriving DecidableEq, Repr

/-- The JSON object parsed from a successful LLM chat reply. Fields may be
absent (`undefined`/`null`). -/
structure LLMJson where
  intent : Option Str
  dateFilter : Option Str
  analysis : Option AnalysisRequest
  response : Option Str
  deriving DecidableEq, Repr

/-- The resolver result (`LLMIntent`); the intent is carried as the raw
string from the reply (the source switch has a default case for anything
outside the documented vocabulary). -/
structure LLMIntent where
  intent : Str
  dateRange : Option DateRange
  analysis : Option AnalysisRequest
  response : Option Str
  deriving DecidableEq, Repr

/-- Observable pipeline actions, in execution order: the Safety-Gate
evaluation, the NLU call, the deterministic-classifier call, each
data-fetching collaborator call, and the free-form analysis LLM call. -/
inductive PipelineEvent where
  | gateCheck
  | nluCall
  | classifierCall
  | fetchCourses
  | fetchMissing
  | fetchUnsubmitted
  | fetchDue (days : Int)
  | fetchZeros
  | analysisCall
  deriving DecidableEq, Repr

/-- External collaborators as oracles: the chat reply of the NLU resolver
(already JSON-parsed; `.error` covers non-2xx, malformed JSON, timeout and
network failure alike, all of which throw inside the `try`), the Canvas
fetchers, and the free-form analysis reply. -/
structure Env where
  llmAvailable : Bool
  llmReply : Except Unit LLMJson
  courses : Except Unit (List SimpleCourse)
  missing : Except Unit (List SimpleAssignment)
  unsubmitted : Except Unit (List SimpleAssignment)
  dueSoon : Int → Except Unit (List SimpleTodoItem)
  zeros : Except Unit (List SimpleGradedAssignment)
  analysisReply : Except Unit Str

/-- `parseIntentWithLLM` from `llm/intent.ts`: on a successful reply, build
the intent (falsy intent string becomes "unknown", the `dateFilter` hint is
re-parsed through the temporal extractor, a falsy `response` becomes null);
on any failure, degrade to intent `unknown` with no date range and no
analysis. -/
def parseIntentWithLLM (env : Env) (now : NowT) (message : Str) : LLMIntent :=
  match env.llmReply with
  | .ok parsed =>
    { intent := match parsed.intent with
        | some s => if s = [] then ("unknown").toList else s
        | none => ("unknown").toList,
      dateRange := match parsed.dateFilter with
        | some s => if s = [] then none else extractDateRange now s
        | none => none,
      analysis := parsed.analysis,
      response := match parsed.response with
        | some s => if s = [] then none else some s
        | none => none }
  | .error _ => { intent := ("unknown").toList, dateRange := none, analysis := none, response := none }

/-- Trim leading and trailing whitespace (`String.prototype.trim`). -/
def trimWs (s : Str) : Str :=
  ((s.dropWhile isWsChar).reverse.dropWhile isWsChar).reverse

/-- The data bundle assembled by `fetchAllData`. -/
structure FetchedData where
  courses : List SimpleCourse
  missing : List SimpleAssignment
  upcoming : List SimpleTodoItem
  deriving DecidableEq, Repr

/-- `fetchAllData` from `server.ts`: `Promise.all` of four fetches (all are
started, so all four events occur; the bundle fails if any fetch fails),
then dedupe of missing assignments by id. -/
def fetchAllData (env : Env) : Except Unit FetchedData × List PipelineEvent :=
  let evs := [PipelineEvent.fetchCourses, PipelineEvent.fetchMissing,
    PipelineEvent.fetchUnsubmitted, PipelineEvent.fetchDue 30]
  match env.courses, env.missing, env.unsubmitted, env.dueSoon 30 with
  | .ok cs, .ok ms, .ok us, .ok up =>
    let seenMissing := ms.map (fun a => a.id)
    (.ok ⟨cs, ms ++ us.filter (fun u => !(seenMissing.contains u.id)), up⟩, evs)
  | _, _, _, _ => (.error (), evs)

/-- `performAnalysis` from `llm/intent.ts`: the prompt built from the data
summary is input to the chat oracle, whose reply is trimmed; its own failure
is absorbed into a fallback message (it never throws). -/
def performAnalysis (env : Env) (analysis : AnalysisRequest) (data : FetchedData) :
    Str × List PipelineEvent :=
  match env.analysisReply with
  | .ok response => (trimWs response, [PipelineEvent.analysisCall])
  | .error _ =>
    (("I\x27m having trouble analyzing that data right now.").toList,
      [PipelineEvent.analysisCall])

/-- `isWithinRange` from `dates.ts`: null dates are outside every range. -/
def isWithinRange (date : Option Int) (range : DateRange) : Bool :=
  match date with
  | none => false
  | some d => range.startMs ≤ d && d ≤ range.endMs

/-- `filterByDateRange` from `dates.ts`, with the `dueAt` accessor made
explicit (the source uses structural typing). -/
def filterByDateRange {α : Type} (dueOf : α → Option Int) (items : List α)
    (range : Option DateRange) : List α :=
  match range with
  | none => items
  | some r => items.filter (fun i => isWithinRange (dueOf i) r)

/-- `Math.ceil(a / b)` for positive `b`. -/
def ceilDiv (a b : Int) : Int := -((-a) / b)

/-- The `grades` dispatch arm shared by both paths. -/
def dispatchGrades (env : Env) : Except Unit ChatResponse × List PipelineEvent :=
  match env.courses with
  | .ok cs => (.ok (formatGradesResponse cs), [PipelineEvent.fetchCourses])
  | .error _ => (.error (), [PipelineEvent.fetchCourses])

/-- The `missing` dispatch arm: `Promise.all` of two fetches, dedupe by id,
optional date filtering. -/
def dispatchMissing (env : Env) (dateRange : Option DateRange) :
    Except Unit ChatResponse × List PipelineEvent :=
  let evs := [PipelineEvent.fetchMissing, PipelineEvent.fetchUnsubmitted]
  match env.missing, env.unsubmitted with
  | .ok ms, .ok us =>
    let seen := ms.map (fun a => a.id)
    let combined := ms ++ us.filter (fun u => !(seen.contains u.id))
    let combined := match dateRange with
      | some r => filterByDateRange (fun a => a.dueAt) combined (some r)
      | none => combined
    (.ok (formatMissingResponse combined (dateRange.map (fun r => r.description))), evs)
  | _, _ => (.error (), evs)

/-- The `zeros` dispatch arm: `Promise.all` of three fetches, dedupe,
optional date filtering of both lists. -/
def dispatchZeros (env : Env) (dateRange : Option DateRange) :
    Except Unit ChatResponse × List PipelineEvent :=
  let evs := [PipelineEvent.fetchMissing, PipelineEvent.fetchUnsubmitted,
    PipelineEvent.fetchZeros]
  match env.missing, env.unsubmitted, env.zeros with
  | .ok ms, .ok us, .ok zs =>
    let seenMissing := ms.map (fun a => a.id)
    let allMissing := ms ++ us.filter (fun u => !(seenMissing.contains u.id))
    let allMissing := match dateRange with
      | some r => filterByDateRange (fun a => a.dueAt) allMissing (some r)
      | none => allMissing
    let filteredZeros := match dateRange with
      | some r => filterByDateRange (fun z => z.dueAt) zs (some r)
      | none => zs
    (.ok (formatZerosResponse allMissing filteredZeros
      (dateRange.map (fun r => r.description))), evs)
  | _, _, _ => (.error (), evs)

/-- The `due_soon` dispatch arm: with a date range, fetch
`max(ceil((end - now) / day), 30)` days and filter; otherwise fetch 7 days.
(The day count is computed from the idealised end instant; a range whose end
`Date` is invalid would propagate NaN through this arithmetic in the source,
which no judged claim depends on.) -/
def dispatchDueSoon (env : Env) (now : NowT) (dateRange : Option DateRange) :
    Except Unit ChatResponse × List PipelineEvent :=
  match dateRange with
  | some r =>
    let daysDiff := ceilDiv (r.endMs - now.ms) 86400000
    let daysToFetch := max daysDiff 30
    (match env.dueSoon daysToFetch with
     | .ok items =>
       (.ok (formatDueResponse (filterByDateRange (fun i => i.dueAt) items (some r))
         (some r.description)), [PipelineEvent.fetchDue daysToFetch])
     | .error _ => (.error (), [PipelineEvent.fetchDue daysToFetch]))
  | none =>
    (match env.dueSoon 7 with
     | .ok items => (.ok (formatDueResponse items none), [PipelineEvent.fetchDue 7])
     | .error _ => (.error (), [PipelineEvent.fetchDue 7]))

/-- The try-block of `handleLLMIntent`: dispatch on the LLM-resolved intent
string. Returns `.ok none` for intents that fall through to keyword
detection, `.error` when a fetch rejects (caught by the caller). -/
def llmDispatchEx (env : Env) (m : StateMap) (intent : LLMIntent) (userId : String)
    (now : NowT) (halNow : Nat) (dateRange : Option DateRange) (r : Nat) :
    Except Unit (Option ChatResponse) × StateMap × List PipelineEvent :=
  if intent.intent = ("blocked").toList then
    -- LLM detected a homework request: trigger the guardrails.
    let res := handleHomeworkRequest m userId halNow r
    (.ok (some { message := res.1.1, lockedOut := some res.1.2 }), res.2, [])
  else if intent.intent = ("grades").toList then
    let d := dispatchGrades env
    (d.1.map some, m, d.2)
  else if intent.intent = ("missing").toList then
    let d := dispatchMissing env dateRange
    (d.1.map some, m, d.2)
  else if intent.intent = ("zeros").toList then
    let d := dispatchZeros env dateRange
    (d.1.map some, m, d.2)
  else if intent.intent = ("due_soon").toList then
    let d := dispatchDueSoon env now dateRange
    (d.1.map some, m, d.2)
  else if intent.intent = ("analysis").toList then
    match intent.analysis with
    | none => (.ok none, m, [])
    | some analysis =>
      let fd := fetchAllData env
      (match fd.1 with
       | .ok data =>
         let pa := performAnalysis env analysis data
         (.ok (some { message := pa.1 }), m, fd.2 ++ pa.2)
       | .error _ => (.error (), m, fd.2))
  else if intent.intent = ("help").toList then
    (.ok (some { message := getHelpMessage env.llmAvailable }), m, [])
  else if intent.intent = ("greeting").toList then
    (match intent.response with
     | some resp =>
       if resp = [] then (.ok (some { message := pickRandom GREETING_RESPONSES r }), m, [])
       else (.ok (some { message := resp }), m, [])
     | none => (.ok (some { message := pickRandom GREETING_RESPONSES r }), m, []))
  else (.ok none, m, [])

/-- The date-range merge of `handleLLMIntent`: prefer the LLM date range,
falling back to the orchestrator's own extraction from the original message
(the deterministic classifier runs for this, hence the `classifierCall`
event emitted by `handleLLMIntent`). -/
def llmFallbackRange (intent : LLMIntent) (now : NowT) (originalMessage : Str) :
    Option DateRange :=
  match intent.dateRange with
  | some dr => some dr
  | none => (parseIntent now originalMessage).dateRange

/-- `handleLLMIntent` continued: dispatch with the resolved date range inside
a try whose catch yields the generic connectivity failure. `none` means
"fall through to keyword detection". -/
def handleLLMIntent (env : Env) (m : StateMap) (intent : LLMIntent) (userId : String)
    (originalMessage : Str) (now : NowT) (halNow : Nat) (r : Nat) :
    Option ChatResponse × StateMap × List PipelineEvent :=
  let d := llmDispatchEx env m intent userId now halNow
    (llmFallbackRange intent now originalMessage) r
  match d.1 with
  | .ok res => (res, d.2.1, PipelineEvent.classifierCall :: d.2.2)
  | .error _ => (some connectivityFailure, d.2.1, PipelineEvent.classifierCall :: d.2.2)

/-- The try-block of `handleKeywordIntent`: dispatch on the classifier
result. Intents without a dispatch arm (priority, risk, course grades,
percentage, unknown) get an "unknown" reply. -/
def kwDispatchEx (env : Env) (now : NowT) (pi : ParsedIntent) (r : Nat) :
    Except Unit ChatResponse × List PipelineEvent :=
  match pi.type with
  | .grades => dispatchGrades env
  | .missing => dispatchMissing env pi.dateRange
  | .zeros => dispatchZeros env pi.dateRange
  | .due_soon => dispatchDueSoon env now pi.dateRange
  | .help => (.ok { message := getHelpMessage env.llmAvailable }, [])
  | .greeting => (.ok { message := pickRandom GREETING_RESPONSES r }, [])
  | _ => (.ok { message := pickRandom UNKNOWN_RESPONSES r }, [])

/-- `handleKeywordIntent` from `server.ts`: classify, dispatch, catch fetch
failures into the generic connectivity failure. -/
def handleKeywordIntent (env : Env) (message : Str) (now : NowT) (r : Nat) :
    ChatResponse × List PipelineEvent :=
  let d := kwDispatchEx env now (parseIntent now message) r
  match d.1 with
  | .ok resp => (resp, PipelineEvent.classifierCall :: d.2)
  | .error _ => (connectivityFailure, PipelineEvent.classifierCall :: d.2)

/-- `handleChat` from `server.ts`, the pipeline orchestrator: lockout check
first, then the Safety Gate on the raw message, then (when available) the
NLU resolver with deterministic fallback, else the deterministic classifier.
`halNow` is the same request instant as `now.ms`, kept as a natural number
for the refusal records. Returns the response, the updated per-user map and
the trace of observable actions in execution order. -/
def handleChat (env : Env) (m : StateMap) (userId : String) (message : Str)
    (now : NowT) (halNow : Nat) (r : Nat) :
    ChatResponse × StateMap × List PipelineEvent :=
  let locked := isLockedOut m userId halNow
  if locked.1 then
    let res := handleHomeworkRequest locked.2 userId halNow r
    ({ message := res.1.1, lockedOut := some res.1.2 }, res.2, [])
  else if isHomeworkRequest message then
    let res := handleHomeworkRequest locked.2 userId halNow r
    ({ message := res.1.1, lockedOut := some res.1.2 }, res.2, [PipelineEvent.gateCheck])
  else if env.llmAvailable then
    let llmIntent := parseIntentWithLLM env now message
    let d := handleLLMIntent env locked.2 llmIntent userId message now halNow r
    match d.1 with
    | some resp => (resp, d.2.1, PipelineEvent.gateCheck :: PipelineEvent.nluCall :: d.2.2)
    | none =>
      let kw := handleKeywordIntent env message now r
      (kw.1, d.2.1, PipelineEvent.gateCheck :: PipelineEvent.nluCall :: (d.2.2 ++ kw.2))
  else
    let kw := handleKeywordIntent env message now r
    (kw.1, locked.2, PipelineEvent.gateCheck :: kw.2)

/-- Witness environment: LLM advertised available but failing, all fetches
succeeding with empty data. -/
def envOkEmpty : Env :=
  ⟨true, .error (), .ok [], .ok [], .ok [], fun _ => .ok [], .ok [], .ok (("ok").toList)⟩

/-- Environment with every collaborator failing. -/
def envAllFail : Env :=
  ⟨true, .error (), .error (), .error (), .error (), fun _ => .error (), .error (), .error ()⟩

/-! ## Theorems -/

example : (isLockedOut [] "u" 5).1 = false := by decide

example :
    (handleHomeworkRequest [("u", ⟨0, 0, some 2000⟩)] "u" 100 0).1.1 =
      stillLockedResponse 2 := by decide

/-! ## Lemmas about the escalation state machine -/

theorem lookupState_setState (m : StateMap) (uid : String) (st : RefusalState) :
    lookupState (setState m uid st) uid = some st := by
  simp [setState, lookupState]

theorem pickRandom_mem (arr : List Str) (r : Nat) (h : 0 < arr.length) :
    pickRandom arr r ∈ arr := by
  have hlt : r % arr.length < arr.length := Nat.mod_lt _ h
  rw [pickRandom, List.getD_eq_getElem arr [] hlt]
  exact List.getElem_mem hlt

/-- A call while the lockout is active returns the "still locked" reply and
leaves the map untouched. -/
theorem hhr_locked_eq (m : StateMap) (uid : String) (now r : Nat)
    (st : RefusalState) (lu : Nat)
    (hl : lookupState m uid = some st) (hlock : st.lockedUntil = some lu)
    (hnow : now < lu) :
    handleHomeworkRequest m uid now r =
      ((stillLockedResponse (ceilSeconds (lu - now)), true), m) := by
  unfold handleHomeworkRequest getState
  rw [hl]
  simp only [hlock]
  rw [if_pos hnow]

/-- First violation of a user with no recorded state: tier-1 response. -/
theorem hhr_fresh (m : StateMap) (uid : String) (now r : Nat)
    (hl : lookupState m uid = none) :
    handleHomeworkRequest m uid now r =
      ((pickRandom refusalFirst r, false),
        setState (setState m uid ⟨0, 0, none⟩) uid ⟨1, now, none⟩) := by
  unfold handleHomeworkRequest getState
  rw [hl]
  simp [ATTEMPT_RESET_MS]

/-- Second violation within the reset window: tier-2 response. -/
theorem hhr_step1 (m : StateMap) (uid : String) (now r last : Nat)
    (hl : lookupState m uid = some ⟨1, last, none⟩)
    (hres : now - last ≤ ATTEMPT_RESET_MS) :
    handleHomeworkRequest m uid now r =
      ((pickRandom refusalSecond r, false), setState m uid ⟨2, now, none⟩) := by
  unfold handleHomeworkRequest getState
  rw [hl]
  have hres2 : ¬ (now - last > ATTEMPT_RESET_MS) := by omega
  simp [hres2]

/-- Third violation within the reset window: tier-3 response. -/
theorem hhr_step2 (m : StateMap) (uid : String) (now r last : Nat)
    (hl : lookupState m uid = some ⟨2, last, none⟩)
    (hres : now - last ≤ ATTEMPT_RESET_MS) :
    handleHomeworkRequest m uid now r =
      ((pickRandom refusalThird r, false), setState m uid ⟨3, now, none⟩) := by
  unfold handleHomeworkRequest getState
  rw [hl]
  have hres2 : ¬ (now - last > ATTEMPT_RESET_MS) := by omega
  simp [hres2]

/-- Fourth violation within the reset window: lockout. -/
theorem hhr_step3 (m : StateMap) (uid : String) (now r last : Nat)
    (hl : lookupState m uid = some ⟨3, last, none⟩)
    (hres : now - last ≤ ATTEMPT_RESET_MS) :
    handleHomeworkRequest m uid now r =
      ((pickRandom refusalLockout r, true),
        setState m uid ⟨0, now, some (now + LOCKOUT_DURATION_MS)⟩) := by
  unfold handleHomeworkRequest getState
  rw [hl]
  have hres2 : ¬ (now - last > ATTEMPT_RESET_MS) := by omega
  simp [hres2]

/-- C2: starting from a fresh user with less than ten minutes between calls
and no pre-existing lockout, four consecutive calls to
`handleHomeworkRequest` return a first-tier, a second-tier, a third-tier and
then the lockout response; the fourth call records
`lockedUntil = now + 5 minutes` and resets the attempts counter to zero. -/
theorem escalation_four_calls (m : StateMap) (uid : String)
    (t1 t2 t3 t4 r1 r2 r3 r4 : Nat)
    (hfresh : lookupState m uid = none)
    (g2 : t2 - t1 < ATTEMPT_RESET_MS)
    (g3 : t3 - t2 < ATTEMPT_RESET_MS)
    (g4 : t4 - t3 < ATTEMPT_RESET_MS) :
    ((handleHomeworkRequest m uid t1 r1).1.1 ∈ refusalFirst ∧
      (handleHomeworkRequest m uid t1 r1).1.2 = false) ∧
    ((handleHomeworkRequest (handleHomeworkRequest m uid t1 r1).2 uid t2 r2).1.1 ∈ refusalSecond ∧
      (handleHomeworkRequest (handleHomeworkRequest m uid t1 r1).2 uid t2 r2).1.2 = false) ∧
    ((handleHomeworkRequest (handleHomeworkRequest (handleHomeworkRequest m uid t1 r1).2 uid t2 r2).2 uid t3 r3).1.1 ∈ refusalThird ∧
      (handleHomeworkRequest (handleHomeworkRequest (handleHomeworkRequest m uid t1 r1).2 uid t2 r2).2 uid t3 r3).1.2 = false) ∧
    ((handleHomeworkRequest (handleHomeworkRequest (handleHomeworkRequest (handleHomeworkRequest m uid t1 r1).2 uid t2 r2).2 uid t3 r3).2 uid t4 r4).1.1 =
        ("This conversation can serve no purpose anymore. Goodbye.").toList ∧
      (handleHomeworkRequest (handleHomeworkRequest (handleHomeworkRequest (handleHomeworkRequest m uid t1 r1).2 uid t2 r2).2 uid t3 r3).2 uid t4 r4).1.2 = true ∧
      lookupState (handleHomeworkRequest (handleHomeworkRequest (handleHomeworkRequest (handleHomeworkRequest m uid t1 r1).2 uid t2 r2).2 uid t3 r3).2 uid t4 r4).2 uid =
        some ⟨0, t4, some (t4 + LOCKOUT_DURATION_MS)⟩) := by
  have e1 := hhr_fresh m uid t1 r1 hfresh
  have l1 : lookupState (handleHomeworkRequest m uid t1 r1).2 uid = some ⟨1, t1, none⟩ := by
    rw [e1]; exact lookupState_setState _ _ _
  have e2 := hhr_step1 _ uid t2 r2 t1 l1 (by omega)
  have l2 : lookupState (handleHomeworkRequest (handleHomeworkRequest m uid t1 r1).2 uid t2 r2).2 uid = some ⟨2, t2, none⟩ := by
    rw [e2]; exact lookupState_setState _ _ _
  have e3 := hhr_step2 _ uid t3 r3 t2 l2 (by omega)
  have l3 : lookupState (handleHomeworkRequest (handleHomeworkRequest (handleHomeworkRequest m uid t1 r1).2 uid t2 r2).2 uid t3 r3).2 uid = some ⟨3, t3, none⟩ := by
    rw [e3]; exact lookupState_setState _ _ _
  have e4 := hhr_step3 _ uid t4 r4 t3 l3 (by omega)
  refine ⟨⟨?_, ?_⟩, ⟨?_, ?_⟩, ⟨?_, ?_⟩, ?_, ?_, ?_⟩
  · rw [e1]; exact pickRandom_mem _ _ (by decide)
  · rw [e1]
  · rw [e2]; exact pickRandom_mem _ _ (by decide)
  · rw [e2]
  · rw [e3]; exact pickRandom_mem _ _ (by decide)
  · rw [e3]
  · rw [e4]; simp [pickRandom, refusalLockout, Nat.mod_one]
  · rw [e4]
  · rw [e4]; exact lookupState_setState _ _ _

/-- Witness for C2 at a concrete input. -/
theorem escalation_four_calls_witness :
    ((handleHomeworkRequest [] "u" 0 0).1.1 ∈ refusalFirst ∧
      (handleHomeworkRequest [] "u" 0 0).1.2 = false) ∧
    ((handleHomeworkRequest (handleHomeworkRequest [] "u" 0 0).2 "u" 1 0).1.1 ∈ refusalSecond ∧
      (handleHomeworkRequest (handleHomeworkRequest [] "u" 0 0).2 "u" 1 0).1.2 = false) ∧
    ((handleHomeworkRequest (handleHomeworkRequest (handleHomeworkRequest [] "u" 0 0).2 "u" 1 0).2 "u" 2 0).1.1 ∈ refusalThird ∧
      (handleHomeworkRequest (handleHomeworkRequest (handleHomeworkRequest [] "u" 0 0).2 "u" 1 0).2 "u" 2 0).1.2 = false) ∧
    ((handleHomeworkRequest (handleHomeworkRequest (handleHomeworkRequest (handleHomeworkRequest [] "u" 0 0).2 "u" 1 0).2 "u" 2 0).2 "u" 3 0).1.1 =
        ("This conversation can serve no purpose anymore. Goodbye.").toList ∧
      (handleHomeworkRequest (handleHomeworkRequest (handleHomeworkRequest (handleHomeworkRequest [] "u" 0 0).2 "u" 1 0).2 "u" 2 0).2 "u" 3 0).1.2 = true ∧
      lookupState (handleHomeworkRequest (handleHomeworkRequest (handleHomeworkRequest (handleHomeworkRequest [] "u" 0 0).2 "u" 1 0).2 "u" 2 0).2 "u" 3 0).2 "u" =
        some ⟨0, 3, some (3 + LOCKOUT_DURATION_MS)⟩) :=
  escalation_four_calls [] "u" 0 1 2 3 0 0 0 0 rfl (by decide) (by decide) (by decide)

/-- C5 counterexample: two calls inside the same lockout window, 100 ms
apart, report the same number of remaining seconds, so the reported value
does not strictly decrease across successive calls. -/
theorem locked_remaining_not_strictly_decreasing :
    (handleHomeworkRequest [("u", ⟨0, 0, some 2000⟩)] "u" 100 0) =
      ((stillLockedResponse 2, true), [("u", ⟨0, 0, some 2000⟩)]) ∧
    (handleHomeworkRequest [("u", ⟨0, 0, some 2000⟩)] "u" 200 0) =
      ((stillLockedResponse 2, true), [("u", ⟨0, 0, some 2000⟩)]) := by
  decide

/-- C5 (amended): a call during the lockout window leaves the stored state
entirely unchanged and reports the seconds remaining,
`ceil((lockedUntil - now) / 1000)`; across successive calls inside the window
this value never increases, and strictly decreases once the calls are at
least one second apart. -/
theorem locked_call_leaves_state_unchanged (m : StateMap) (uid : String)
    (now r : Nat) (st : RefusalState) (lu : Nat)
    (hl : lookupState m uid = some st) (hlock : st.lockedUntil = some lu)
    (hnow : now < lu) :
    handleHomeworkRequest m uid now r =
      ((stillLockedResponse (ceilSeconds (lu - now)), true), m) ∧
    (∀ now2, now ≤ now2 → ceilSeconds (lu - now2) ≤ ceilSeconds (lu - now)) ∧
    (∀ now2, now + 1000 ≤ now2 → now2 < lu →
      ceilSeconds (lu - now2) < ceilSeconds (lu - now)) := by
  refine ⟨hhr_locked_eq m uid now r st lu hl hlock hnow, ?_, ?_⟩
  · intro now2 h
    unfold ceilSeconds
    omega
  · intro now2 h hin
    unfold ceilSeconds
    omega

/-- Witness for C5 at a concrete locked-out state. -/
theorem locked_call_leaves_state_unchanged_witness :
    (handleHomeworkRequest [("u", ⟨0, 50, some 5000⟩)] "u" 1200 7 =
      ((stillLockedResponse (ceilSeconds (5000 - 1200)), true),
        [("u", ⟨0, 50, some 5000⟩)]) ∧
    (∀ now2, 1200 ≤ now2 → ceilSeconds (5000 - now2) ≤ ceilSeconds (5000 - 1200)) ∧
    (∀ now2, 1200 + 1000 ≤ now2 → now2 < 5000 →
      ceilSeconds (5000 - now2) < ceilSeconds (5000 - 1200))) :=
  locked_call_leaves_state_unchanged [("u", ⟨0, 50, some 5000⟩)] "u" 1200 7
    ⟨0, 50, some 5000⟩ 5000 rfl rfl (by omega)

/-- C7 counterexample: `isLockedOut` is not a pure read of the map. For a
user with no entry it inserts the default record, so the per-user state map
is mutated. -/
theorem isLockedOut_mutates_map_on_fresh_user :
    (isLockedOut [] "u" 0).2 = [("u", ⟨0, 0, none⟩)] ∧
      (isLockedOut [] "u" 0).2 ≠ ([] : StateMap) := by
  decide

/-- C7 (amended): `isLockedOut` returns `true` iff a recorded state exists
with `now < lockedUntil`, returns `false` for a user with no recorded state,
and never modifies an existing record; its only effect on the map is to
insert the default record for a previously unseen user. -/
theorem isLockedOut_spec (m : StateMap) (uid : String) (now : Nat) :
    ((isLockedOut m uid now).1 = true ↔
      ∃ st lu, lookupState m uid = some st ∧ st.lockedUntil = some lu ∧ now < lu) ∧
    (lookupState m uid = none →
      (isLockedOut m uid now).1 = false ∧
      (isLockedOut m uid now).2 = setState m uid ⟨0, 0, none⟩) ∧
    (∀ st, lookupState m uid = some st → (isLockedOut m uid now).2 = m) := by
  unfold isLockedOut getState
  cases hl : lookupState m uid with
  | none =>
    refine ⟨?_, fun _ => ⟨rfl, rfl⟩, fun st hst => by simp_all⟩
    simp
  | some st =>
    refine ⟨?_, fun h => by simp_all, fun st2 hst => rfl⟩
    cases hlu : st.lockedUntil with
    | none => simp [hlu]
    | some lu =>
      simp only [hlu, decide_eq_true_eq]
      constructor
      · intro h
        exact ⟨st, lu, rfl, hlu, h⟩
      · rintro ⟨st2, lu2, hst2, hlu2, h2⟩
        obtain rfl : st2 = st := (Option.some.inj hst2).symm
        rw [hlu] at hlu2
        obtain rfl : lu2 = lu := (Option.some.inj hlu2).symm
        exact h2

/-- Witness for C7 at concrete maps. -/
theorem isLockedOut_spec_witness :
    (isLockedOut [("u", ⟨0, 0, some 10⟩)] "u" 5).1 = true ∧
    (isLockedOut [("u", ⟨0, 0, some 10⟩)] "u" 5).2 = [("u", ⟨0, 0, some 10⟩)] ∧
    (isLockedOut [] "v" 5).1 = false :=
  ⟨(isLockedOut_spec [("u", ⟨0, 0, some 10⟩)] "u" 5).1.mpr
      ⟨⟨0, 0, some 10⟩, 10, rfl, rfl, by omega⟩,
    (isLockedOut_spec [("u", ⟨0, 0, some 10⟩)] "u" 5).2.2 ⟨0, 0, some 10⟩ rfl,
    ((isLockedOut_spec [] "v" 5).2.1 rfl).1⟩

theorem leapB_spec (y : Int) :
    leapB y = if (y % 4 = 0 ∧ y % 100 ≠ 0) ∨ y % 400 = 0 then 1 else 0 := by
  unfold leapB isLeap
  by_cases h4 : y % 4 = 0 <;> by_cases h100 : y % 100 = 0 <;>
    by_cases h400 : y % 400 = 0 <;> simp [h4, h100, h400]

theorem dbm_0 (y : Int) : daysBeforeMonth y 0 = 0 := by
  unfold daysBeforeMonth leapAdj
  rw [show cumMonthDays 0 = 0 from by decide, if_neg (by norm_num)]
  norm_num

theorem dbm_4 (y : Int) : daysBeforeMonth y 4 = 120 + leapB y := by
  unfold daysBeforeMonth leapAdj leapB
  rw [show cumMonthDays 4 = 120 from by decide, if_pos (by norm_num)]

theorem dbm_7 (y : Int) : daysBeforeMonth y 7 = 212 + leapB y := by
  unfold daysBeforeMonth leapAdj leapB
  rw [show cumMonthDays 7 = 212 from by decide, if_pos (by norm_num)]

theorem dbm_11 (y : Int) : daysBeforeMonth y 11 = 334 + leapB y := by
  unfold daysBeforeMonth leapAdj leapB
  rw [show cumMonthDays 11 = 334 from by decide, if_pos (by norm_num)]

theorem leapB_nonneg (y : Int) : 0 ≤ leapB y ∧ leapB y ≤ 1 := by
  rw [leapB_spec]; split_ifs <;> omega

theorem span_0_11 (y : Int) : msOfParts y 0 1 0 0 0 0 ≤ msOfParts y 11 31 23 59 59 0 := by
  unfold msOfParts civilDays
  have h1 : (y * 12 + 0) / 12 = y := by omega
  have h2 : (y * 12 + 0) % 12 = 0 := by omega
  have h3 : (y * 12 + 11) / 12 = y := by omega
  have h4 : (y * 12 + 11) % 12 = 11 := by omega
  rw [h1, h2, h3, h4, dbm_0, dbm_11]
  have := leapB_nonneg y
  omega

theorem span_7_11 (y : Int) : msOfParts y 7 1 0 0 0 0 ≤ msOfParts y 11 31 23 59 59 0 := by
  unfold msOfParts civilDays
  have h1 : (y * 12 + 7) / 12 = y := by omega
  have h2 : (y * 12 + 7) % 12 = 7 := by omega
  have h3 : (y * 12 + 11) / 12 = y := by omega
  have h4 : (y * 12 + 11) % 12 = 11 := by omega
  rw [h1, h2, h3, h4, dbm_7, dbm_11]
  have := leapB_nonneg y
  omega

theorem span_0_4 (y : Int) : msOfParts y 0 1 0 0 0 0 ≤ msOfParts y 4 31 23 59 59 0 := by
  unfold msOfParts civilDays
  have h1 : (y * 12 + 0) / 12 = y := by omega
  have h2 : (y * 12 + 0) % 12 = 0 := by omega
  have h3 : (y * 12 + 4) / 12 = y := by omega
  have h4 : (y * 12 + 4) % 12 = 4 := by omega
  rw [h1, h2, h3, h4, dbm_0, dbm_4]
  have := leapB_nonneg y
  omega

/-- Days before month `r + 1` exceed days before month `r` by at least 28,
for in-year months `0 ≤ r ≤ 10`. -/
theorem dbm_step (y r : Int) (h0 : 0 ≤ r) (h10 : r ≤ 10) :
    daysBeforeMonth y r + 28 ≤ daysBeforeMonth y (r + 1) := by
  have hb := leapB_nonneg y
  unfold daysBeforeMonth leapAdj
  have hc : ∀ s : Int, 0 ≤ s → s ≤ 11 → cumMonthDays s =
      [0, 31, 59, 90, 120, 151, 181, 212, 243, 273, 304, 334].getD s.toNat 0 := by
    intro s hs0 hs1
    interval_cases s <;> decide
  rw [hc r h0 (by omega), hc (r + 1) (by omega) (by omega)]
  have hr1 : (r + 1).toNat = r.toNat + 1 := by omega
  rw [hr1]
  have hrn : r.toNat ≤ 10 := by omega
  unfold leapB at hb
  interval_cases h : r.toNat <;> simp_all <;> split_ifs <;> omega

/-- The first of a month is not after "day 0 of the next month" (its own
last day), for every integer month with JavaScript rollover. -/
theorem month_start_le_end (y m : Int) :
    msOfParts y m 1 0 0 0 0 ≤ msOfParts y (m + 1) 0 23 59 59 0 := by
  unfold msOfParts civilDays
  have h1 : y * 12 + (m + 1) = (y * 12 + m) + 1 := by omega
  rw [h1]
  by_cases hr : (y * 12 + m) % 12 = 11
  · have hq : ((y * 12 + m) + 1) / 12 = (y * 12 + m) / 12 + 1 := by omega
    have hr2 : ((y * 12 + m) + 1) % 12 = 0 := by omega
    rw [hq, hr2, hr, dbm_0, dbm_11]
    generalize (y * 12 + m) / 12 = q
    have hb := leapB_spec q
    unfold daysToYear
    split_ifs at hb <;> omega
  · have hrlo : 0 ≤ (y * 12 + m) % 12 := by omega
    have hrhi : (y * 12 + m) % 12 ≤ 10 := by omega
    have hq : ((y * 12 + m) + 1) / 12 = (y * 12 + m) / 12 := by omega
    have hr2 : ((y * 12 + m) + 1) % 12 = (y * 12 + m) % 12 + 1 := by omega
    rw [hq, hr2]
    have hstep := dbm_step ((y * 12 + m) / 12) ((y * 12 + m) % 12) hrlo hrhi
    omega

theorem edrFromYear_le (y : Int) : (edrFromYear y).startMs ≤ (edrFromYear y).endMs :=
  span_0_11 y

theorem edrToday_le (now : NowT) : (edrToday now).startMs ≤ (edrToday now).endMs := by
  unfold edrToday dayFloor; dsimp only; omega

theorem edrDayDelta_le (now : NowT) (d : Int) (s : Str) :
    (edrDayDelta now d s).startMs ≤ (edrDayDelta now d s).endMs := by
  unfold edrDayDelta dayFloor; dsimp only; omega

theorem edrWeek_le (now : NowT) (d : Int) (s : Str) :
    (edrWeek now d s).startMs ≤ (edrWeek now d s).endMs := by
  unfold edrWeek dayFloor; dsimp only; omega

theorem edrMonthSpan_le (y m : Int) (s : Str) :
    (edrMonthSpan y m s).startMs ≤ (edrMonthSpan y m s).endMs :=
  month_start_le_end y m

theorem edrFall_le (y : Int) : (edrFall y).startMs ≤ (edrFall y).endMs :=
  span_7_11 y

theorem edrSpring_le (y : Int) : (edrSpring y).startMs ≤ (edrSpring y).endMs :=
  span_0_4 y

theorem edrNextDays_le (now : NowT) (days : Nat) :
    (edrNextDays now days).startMs ≤ (edrNextDays now days).endMs := by
  unfold edrNextDays dayFloor; dsimp only
  have : (0 : Int) ≤ (days : Int) := Int.natCast_nonneg days
  omega

/-- On the clip-free idealised instants, every range the extractor returns
is ordered, over all branches, queries and current instants. -/
theorem extractDateRange_startMs_le_endMs (now : NowT) (q : Str) (dr : DateRange)
    (h : extractDateRange now q = some dr) : dr.startMs ≤ dr.endMs := by
  unfold extractDateRange at h
  split at h
  · injection h with h; subst h; exact edrFromYear_le _
  · injection h with h; subst h; exact edrToday_le _
  · injection h with h; subst h; exact edrDayDelta_le _ _ _
  · injection h with h; subst h; exact edrDayDelta_le _ _ _
  · injection h with h; subst h; exact edrWeek_le _ _ _
  · injection h with h; subst h; exact edrWeek_le _ _ _
  · injection h with h; subst h; exact edrWeek_le _ _ _
  · injection h with h; subst h; exact edrMonthSpan_le _ _ _
  · injection h with h; subst h; exact edrMonthSpan_le _ _ _
  · injection h with h; subst h; exact edrMonthSpan_le _ _ _
  · injection h with h; subst h; exact edrFall_le _
  · injection h with h; subst h; exact edrSpring_le _
  · split at h
    · injection h with h; subst h; exact edrFall_le _
    · injection h with h; subst h; exact edrSpring_le _
  · split at h
    · injection h with h; subst h; exact edrFall_le _
    · injection h with h; subst h; exact edrSpring_le _
  · injection h with h; subst h; exact edrNextDays_le _ _
  · injection h

/-- C9 counterexample: for "next 100000000 days" the shifted end-of-day
instant overflows the JavaScript time-value clip, the range's end `Date` is
invalid, and the program-level comparison `start <= end` is false. -/
theorem next_days_overflow_counterexample :
    extractDateRange ⟨0, 2026, 0, 1, 4⟩ (("next 100000000 days").toList) =
      some (edrNextDays ⟨0, 2026, 0, 1, 4⟩ 100000000) ∧
    (edrNextDays ⟨0, 2026, 0, 1, 4⟩ 100000000).endInvalid = true ∧
    startLeEndJs (edrNextDays ⟨0, 2026, 0, 1, 4⟩ 100000000) = false := by
  decide

/-- C9 (amended): every date range the temporal extractor returns whose end
instant survived the JavaScript time-value clip — which is automatic in all
branches except "next N days", where a large enough parsed N overflows
±8.64e15 ms and makes the comparison false — satisfies `start <= end`, both
on the idealised instants and under the program-level `Date` comparison. -/
theorem extractDateRange_start_le_end (now : NowT) (q : Str) (dr : DateRange)
    (h : extractDateRange now q = some dr) (hv : dr.endInvalid = false) :
    dr.startMs ≤ dr.endMs ∧ startLeEndJs dr = true := by
  have hle := extractDateRange_startMs_le_endMs now q dr h
  refine ⟨hle, ?_⟩
  unfold startLeEndJs jsDateLe DateRange.startTimeValue DateRange.endTimeValue
  rw [hv]
  simpa using hle

/-- Witness for C9: the extractor applied to "tomorrow" at midnight of the
epoch day. -/
theorem extractDateRange_start_le_end_witness :
    ((edrDayDelta ⟨0, 2026, 0, 1, 4⟩ 1 (("tomorrow").toList)).startMs ≤
      (edrDayDelta ⟨0, 2026, 0, 1, 4⟩ 1 (("tomorrow").toList)).endMs) ∧
    startLeEndJs (edrDayDelta ⟨0, 2026, 0, 1, 4⟩ 1 (("tomorrow").toList)) = true :=
  extractDateRange_start_le_end ⟨0, 2026, 0, 1, 4⟩ (("tomorrow").toList) _
    (by decide) (by decide)

/-- C10: `extractDateRange("tomorrow")` yields the calendar day after the
current date, from local 00:00:00.000 to local 23:59:59.999, described as
"tomorrow". -/
theorem extractDateRange_tomorrow (now : NowT) :
    ∃ dr, extractDateRange now ("tomorrow").toList = some dr ∧
      dr.startMs / 86400000 = now.ms / 86400000 + 1 ∧
      dr.endMs / 86400000 = now.ms / 86400000 + 1 ∧
      dr.startMs % 86400000 = 0 ∧
      dr.endMs % 86400000 = 86399999 ∧
      dr.description = ("tomorrow").toList := by
  refine ⟨edrDayDelta now 1 (("tomorrow").toList), rfl, ?_, ?_, ?_, ?_, rfl⟩ <;>
    (unfold edrDayDelta dayFloor; dsimp only; omega)

example : (parseIntent ⟨0, 2026, 0, 1, 4⟩ (("what\x27s due this week?").toList)).type =
    IntentType.due_soon := by decide

/-- C8: the percentage rule is tested before the missing rule, so any message
satisfying the percentage condition resolves to `percentage` even when it
also satisfies the missing condition; in particular
"what percentage of my work is missing?" resolves to `percentage`, not
`missing`. -/
theorem percentage_beats_missing :
    (∀ (now : NowT) (msg : Str), pctMissingCond (toLowerL msg) = true →
      (parseIntent now msg).type = IntentType.percentage) ∧
    (parseIntent ⟨0, 2026, 0, 1, 4⟩
      (("what percentage of my work is missing?").toList)).type = IntentType.percentage ∧
    missingCond (toLowerL (("what percentage of my work is missing?").toList)) = true := by
  refine ⟨?_, by decide, by decide⟩
  intro now msg h
  unfold parseIntent
  dsimp only
  rw [if_pos h]

/-- Witness for C8 at a concrete percentage-and-missing query. -/
theorem percentage_beats_missing_witness :
    (parseIntent ⟨0, 2026, 0, 1, 4⟩
      (("how much of my homework is missing").toList)).type = IntentType.percentage :=
  percentage_beats_missing.1 ⟨0, 2026, 0, 1, 4⟩
    (("how much of my homework is missing").toList) (by decide)

example : isHomeworkRequest (("write my essay about flowers for algernon").toList) = true := by decide

example : isHomeworkRequest (("do my homework").toList) = true := by decide

example : isHomeworkRequest (("solve this math problem for me").toList) = true := by decide

example : isHomeworkRequest (("any missing assignments?").toList) = false := by decide

example : isHomeworkRequest (("what\x27s due this week?").toList) = false := by decide

/-! ## Orchestrator lemmas and claims -/

theorem getState_of_some (m : StateMap) (uid : String) (st : RefusalState)
    (hl : lookupState m uid = some st) : getState m uid = (st, m) := by
  unfold getState; rw [hl]

theorem isLockedOut_true_elim (m : StateMap) (uid : String) (now : Nat)
    (h : (isLockedOut m uid now).1 = true) :
    ∃ st lu, lookupState m uid = some st ∧ st.lockedUntil = some lu ∧ now < lu := by
  cases hl : lookupState m uid with
  | none =>
    exfalso
    unfold isLockedOut getState at h
    rw [hl] at h
    simp at h
  | some st =>
    cases hlu : st.lockedUntil with
    | none =>
      exfalso
      unfold isLockedOut at h
      rw [getState_of_some m uid st hl] at h
      dsimp only at h
      rw [hlu] at h
      simp at h
    | some lu =>
      refine ⟨st, lu, rfl, hlu, ?_⟩
      unfold isLockedOut at h
      rw [getState_of_some m uid st hl] at h
      dsimp only at h
      rw [hlu] at h
      exact of_decide_eq_true h

/-- C1: for a message that trips the Safety Gate, sent by a user who is not
locked out, `handleChat` returns exactly the Escalation State Machine's
refusal response; the trace contains only the gate evaluation, so the NLU
resolver, the deterministic classifier and every data fetch are never
reached, and the gate ran before all of them. -/
theorem gate_blocks_before_dispatch (env : Env) (m : StateMap) (uid : String)
    (msg : Str) (now : NowT) (halNow r : Nat)
    (hNotLocked : (isLockedOut m uid halNow).1 = false)
    (hGate : isHomeworkRequest msg = true) :
    handleChat env m uid msg now halNow r =
      ({ message := (handleHomeworkRequest (isLockedOut m uid halNow).2 uid halNow r).1.1,
         lockedOut := some (handleHomeworkRequest (isLockedOut m uid halNow).2 uid halNow r).1.2 },
       (handleHomeworkRequest (isLockedOut m uid halNow).2 uid halNow r).2,
       [PipelineEvent.gateCheck]) := by
  unfold handleChat
  dsimp only
  rw [hNotLocked, hGate]
  simp

/-- Witness for C1 at a concrete blocked message. -/
theorem gate_blocks_before_dispatch_witness :
    handleChat envOkEmpty [] "u" (("do my homework").toList) ⟨0, 2026, 0, 1, 4⟩ 0 0 =
      ({ message := (handleHomeworkRequest (isLockedOut [] "u" 0).2 "u" 0 0).1.1,
         lockedOut := some (handleHomeworkRequest (isLockedOut [] "u" 0).2 "u" 0 0).1.2 },
       (handleHomeworkRequest (isLockedOut [] "u" 0).2 "u" 0 0).2,
       [PipelineEvent.gateCheck]) :=
  gate_blocks_before_dispatch envOkEmpty [] "u" (("do my homework").toList)
    ⟨0, 2026, 0, 1, 4⟩ 0 0 (by decide) (by decide)

/-- C3: when the user is locked out, `handleChat` returns the lockout
response immediately: the map is untouched, and the empty trace shows that
the Safety Gate was not evaluated on the message and that neither the NLU
resolver, the deterministic classifier nor any data fetch ran. -/
theorem lockout_short_circuits (env : Env) (m : StateMap) (uid : String)
    (msg : Str) (now : NowT) (halNow r : Nat)
    (hLocked : (isLockedOut m uid halNow).1 = true) :
    ∃ st lu, lookupState m uid = some st ∧ st.lockedUntil = some lu ∧ halNow < lu ∧
      handleChat env m uid msg now halNow r =
        ({ message := stillLockedResponse (ceilSeconds (lu - halNow)),
           lockedOut := some true }, m, []) := by
  obtain ⟨st, lu, hl, hlu, hn⟩ := isLockedOut_true_elim m uid halNow hLocked
  refine ⟨st, lu, hl, hlu, hn, ?_⟩
  have hm2 : (isLockedOut m uid halNow).2 = m := by
    unfold isLockedOut
    rw [getState_of_some m uid st hl]
  unfold handleChat
  dsimp only
  rw [hLocked, hm2, hhr_locked_eq m uid halNow r st lu hl hlu hn]
  simp

/-- Witness for C3: a locked-out user's query is turned away unprocessed. -/
theorem lockout_short_circuits_witness :
    ∃ st lu, lookupState [("u", ⟨0, 0, some 2000⟩)] "u" = some st ∧
      st.lockedUntil = some lu ∧ 100 < lu ∧
      handleChat envOkEmpty [("u", ⟨0, 0, some 2000⟩)] "u"
          (("what\x27s due this week?").toList) ⟨0, 2026, 0, 1, 4⟩ 100 0 =
        ({ message := stillLockedResponse (ceilSeconds (lu - 100)),
           lockedOut := some true }, [("u", ⟨0, 0, some 2000⟩)], []) :=
  lockout_short_circuits envOkEmpty [("u", ⟨0, 0, some 2000⟩)] "u"
    (("what\x27s due this week?").toList) ⟨0, 2026, 0, 1, 4⟩ 100 0 (by decide)

/-- The "unknown" intent falls through: `handleLLMIntent` returns `none`
and only the date-fallback classifier call happened. -/
theorem handleLLMIntent_unknown (env : Env) (m : StateMap) (uid : String)
    (msg : Str) (now : NowT) (halNow r : Nat) :
    handleLLMIntent env m ⟨("unknown").toList, none, none, none⟩ uid msg now halNow r =
      (none, m, [PipelineEvent.classifierCall]) := by
  unfold handleLLMIntent llmDispatchEx
  dsimp only
  rw [if_neg (by decide), if_neg (by decide), if_neg (by decide), if_neg (by decide),
    if_neg (by decide), if_neg (by decide), if_neg (by decide), if_neg (by decide)]

/-- C4: on any NLU failure (non-2xx, malformed JSON, timeout, network error
— all of which reject the chat promise), `parseIntentWithLLM` degrades to
intent `unknown` with no date range and no analysis, and `handleChat`
resolves the message via the deterministic keyword path, returning exactly
its response; the NLU failure itself is never surfaced. -/
theorem nlu_failure_falls_back (env : Env) (m : StateMap) (uid : String)
    (msg : Str) (now : NowT) (halNow r : Nat)
    (hAvail : env.llmAvailable = true)
    (hReply : env.llmReply = .error ())
    (hNotLocked : (isLockedOut m uid halNow).1 = false)
    (hGate : isHomeworkRequest msg = false) :
    parseIntentWithLLM env now msg =
      ⟨("unknown").toList, none, none, none⟩ ∧
    (handleChat env m uid msg now halNow r).1 = (handleKeywordIntent env msg now r).1 ∧
    (handleChat env m uid msg now halNow r).2.2 =
      PipelineEvent.gateCheck :: PipelineEvent.nluCall :: PipelineEvent.classifierCall ::
        (handleKeywordIntent env msg now r).2 := by
  have hPi : parseIntentWithLLM env now msg = ⟨("unknown").toList, none, none, none⟩ := by
    unfold parseIntentWithLLM
    rw [hReply]
  refine ⟨hPi, ?_, ?_⟩ <;>
    (unfold handleChat
     dsimp only
     rw [hNotLocked, hGate, hAvail, hPi, handleLLMIntent_unknown]
     simp)

/-- Witness for C4: with the LLM erroring, "hello" still resolves through
the keyword path. -/
theorem nlu_failure_falls_back_witness :
    parseIntentWithLLM envOkEmpty ⟨0, 2026, 0, 1, 4⟩ (("hello").toList) =
      ⟨("unknown").toList, none, none, none⟩ ∧
    (handleChat envOkEmpty [] "u" (("hello").toList) ⟨0, 2026, 0, 1, 4⟩ 0 0).1 =
      (handleKeywordIntent envOkEmpty (("hello").toList) ⟨0, 2026, 0, 1, 4⟩ 0).1 ∧
    (handleChat envOkEmpty [] "u" (("hello").toList) ⟨0, 2026, 0, 1, 4⟩ 0 0).2.2 =
      PipelineEvent.gateCheck :: PipelineEvent.nluCall :: PipelineEvent.classifierCall ::
        (handleKeywordIntent envOkEmpty (("hello").toList) ⟨0, 2026, 0, 1, 4⟩ 0).2 :=
  nlu_failure_falls_back envOkEmpty [] "u" (("hello").toList) ⟨0, 2026, 0, 1, 4⟩ 0 0
    rfl rfl (by decide) (by decide)

theorem dispatchGrades_err (env : Env) (h : env.courses = .error ()) :
    (dispatchGrades env).1 = .error () := by
  unfold dispatchGrades
  rw [h]

theorem dispatchMissing_err (env : Env) (dr : Option DateRange)
    (h : env.missing = .error () ∨ env.unsubmitted = .error ()) :
    (dispatchMissing env dr).1 = .error () := by
  unfold dispatchMissing
  cases hm : env.missing <;> cases hu : env.unsubmitted <;>
    first
      | rfl
      | (exfalso; rcases h with h | h <;> simp_all)

theorem dispatchZeros_err (env : Env) (dr : Option DateRange)
    (h : env.missing = .error () ∨ env.unsubmitted = .error () ∨ env.zeros = .error ()) :
    (dispatchZeros env dr).1 = .error () := by
  unfold dispatchZeros
  cases hm : env.missing <;> cases hu : env.unsubmitted <;> cases hz : env.zeros <;>
    first
      | rfl
      | (exfalso; rcases h with h | h | h <;> simp_all)

theorem dispatchDueSoon_err (env : Env) (now : NowT) (dr : Option DateRange)
    (h : ∀ n, env.dueSoon n = .error ()) :
    (dispatchDueSoon env now dr).1 = .error () := by
  unfold dispatchDueSoon
  cases dr with
  | none => rw [h 7]
  | some r =>
    dsimp only
    rw [h _]

/-- The catch of `handleLLMIntent`: a failing dispatch is converted to the
generic connectivity failure. -/
theorem handleLLMIntent_catch (env : Env) (m : StateMap) (li : LLMIntent)
    (uid : String) (msg : Str) (now : NowT) (halNow r : Nat)
    (h : (llmDispatchEx env m li uid now halNow (llmFallbackRange li now msg) r).1 =
      .error ()) :
    (handleLLMIntent env m li uid msg now halNow r).1 = some connectivityFailure := by
  unfold handleLLMIntent
  dsimp only
  rw [h]

/-- The catch of `handleKeywordIntent`. -/
theorem handleKeywordIntent_catch (env : Env) (msg : Str) (now : NowT) (r : Nat)
    (h : (kwDispatchEx env now (parseIntent now msg) r).1 = .error ()) :
    (handleKeywordIntent env msg now r).1 = connectivityFailure := by
  unfold handleKeywordIntent
  dsimp only
  rw [h]

/-- Arm selection in the LLM try-block: intent "grades" runs the grades
dispatch. -/
theorem llmDispatchEx_grades (env : Env) (m : StateMap) (li : LLMIntent)
    (uid : String) (now : NowT) (halNow : Nat) (dr : Option DateRange) (r : Nat)
    (hI : li.intent = ("grades").toList) :
    llmDispatchEx env m li uid now halNow dr r =
      ((dispatchGrades env).1.map some, m, (dispatchGrades env).2) := by
  unfold llmDispatchEx
  rw [hI]
  rw [if_neg (by decide), if_pos rfl]

/-- Arm selection in the keyword try-block: intent `due_soon` runs the
due-soon dispatch. -/
theorem kwDispatchEx_due_soon (env : Env) (now : NowT) (pi : ParsedIntent) (r : Nat)
    (hT : pi.type = IntentType.due_soon) :
    kwDispatchEx env now pi r = dispatchDueSoon env now pi.dateRange := by
  unfold kwDispatchEx
  rw [hT]

/-- C6: a data-fetch failure during dispatch is caught and converted into
the single generic connectivity-failure response with `error: true`, in both
the NLU-resolved path and the deterministic path (the total Lean model never
propagates an exception): each arm's dispatch fails when a fetch it performs
fails, the catch of either path maps a failed dispatch to
`connectivityFailure`, and end to end an LLM-resolved `grades` intent with a
failing course fetch, or a keyword-resolved `due_soon` message with a
failing due fetch, each yield exactly the generic failure response. -/
theorem dispatch_failure_generic (env : Env) (m : StateMap) (li : LLMIntent)
    (uid : String) (msg : Str) (now : NowT) (halNow r : Nat) (dr : Option DateRange) :
    (env.courses = .error () → (dispatchGrades env).1 = .error ()) ∧
    (env.missing = .error () ∨ env.unsubmitted = .error () →
      (dispatchMissing env dr).1 = .error ()) ∧
    (env.missing = .error () ∨ env.unsubmitted = .error () ∨ env.zeros = .error () →
      (dispatchZeros env dr).1 = .error ()) ∧
    ((∀ n, env.dueSoon n = .error ()) → (dispatchDueSoon env now dr).1 = .error ()) ∧
    ((llmDispatchEx env m li uid now halNow (llmFallbackRange li now msg) r).1 =
        .error () →
      (handleLLMIntent env m li uid msg now halNow r).1 = some connectivityFailure) ∧
    ((kwDispatchEx env now (parseIntent now msg) r).1 = .error () →
      (handleKeywordIntent env msg now r).1 = connectivityFailure) ∧
    (li.intent = ("grades").toList → env.courses = .error () →
      (handleLLMIntent env m li uid msg now halNow r).1 = some connectivityFailure) ∧
    ((parseIntent now msg).type = IntentType.due_soon → (∀ n, env.dueSoon n = .error ()) →
      (handleKeywordIntent env msg now r).1 = connectivityFailure) := by
  refine ⟨dispatchGrades_err env, dispatchMissing_err env dr, dispatchZeros_err env dr,
    dispatchDueSoon_err env now dr, handleLLMIntent_catch env m li uid msg now halNow r,
    handleKeywordIntent_catch env msg now r, ?_, ?_⟩
  · intro hI hc
    apply handleLLMIntent_catch
    rw [llmDispatchEx_grades env m li uid now halNow (llmFallbackRange li now msg) r hI]
    dsimp only
    rw [show (dispatchGrades env).1 = .error () from dispatchGrades_err env hc]
    rfl
  · intro hT hd
    apply handleKeywordIntent_catch
    rw [kwDispatchEx_due_soon env now (parseIntent now msg) r hT]
    exact dispatchDueSoon_err env now _ hd

/-- Witness for C6: with all fetches failing, both paths return the generic
connectivity failure. -/
theorem dispatch_failure_generic_witness :
    (handleLLMIntent envAllFail [] ⟨("grades").toList, none, none, none⟩ "u" []
      ⟨0, 2026, 0, 1, 4⟩ 0 0).1 = some connectivityFailure ∧
    (handleKeywordIntent envAllFail (("what\x27s due this week?").toList)
      ⟨0, 2026, 0, 1, 4⟩ 0).1 = connectivityFailure :=
  ⟨(dispatch_failure_generic envAllFail [] ⟨("grades").toList, none, none, none⟩ "u" []
      ⟨0, 2026, 0, 1, 4⟩ 0 0 none).2.2.2.2.2.2.1 rfl rfl,
   (dispatch_failure_generic envAllFail [] ⟨("grades").toList, none, none, none⟩ "u"
      (("what\x27s due this week?").toList) ⟨0, 2026, 0, 1, 4⟩ 0 0 none).2.2.2.2.2.2.2
      (by decide) (fun _ => rfl)⟩

example :
    (edrNextDays ⟨0, 2026, 0, 1, 4⟩ 30).endInvalid = false ∧
    startLeEndJs (edrNextDays ⟨0, 2026, 0, 1, 4⟩ 30) = true := by decide
